import Mathlib

/-!
# Verification of the cortexd runtime kernel against its specification

This file gives a shallow embedding, in Lean 4, of the parts of the cortexd
daemon that the specification's claims are about:

* the alert store (`daemon/src/alerts/alert_manager.cpp`): rows, the five
  in-memory severity counters, and the operations create / acknowledge /
  acknowledge-all / dismiss / initial counter load;
* the threshold engine (`daemon/src/monitor/system_monitor.cpp`):
  `check_thresholds` and `create_basic_alert`, with the firing-key set;
* the IPC rate limiter and the server stop/drain protocol
  (`daemon/src/ipc/server.cpp`);
* the LLM engine queue and its stop / clear-queue paths
  (`daemon/src/llm/engine.cpp`);
* configuration validation and the configuration manager
  (`daemon/src/config/config.cpp`);
* the `alerts.acknowledge` IPC handler (`daemon/src/ipc/handlers.cpp`).

Pure functions of the C++ source become Lean functions; stateful code becomes
explicit state passing; the per-connection concurrency of the IPC server is
modelled as a labelled transition system.  File-system and SQLite effects are
represented by explicit outcome parameters (driver success flags, parse
outcomes), so that every branch of the source is still visible in the model.
-/

namespace Cortexd

/-! ## Alert data model

The enumerations mirror the declarations used throughout the source
(`alert_manager.h` is not part of the extracted sources; the declaration
order is fixed by the `severity_to_string` / `category_to_string` /
`status_to_string` switches in `alert_manager.cpp` and by the SQL schema
default `status INTEGER NOT NULL DEFAULT 0`, which is `ACTIVE`). -/

inductive AlertSeverity where
  | INFO
  | WARNING
  | ERROR
  | CRITICAL
  deriving DecidableEq, Repr

/-- Numeric code of a severity, as produced by `static_cast<int>(severity)`. -/
def AlertSeverity.code : AlertSeverity → Nat
  | .INFO => 0
  | .WARNING => 1
  | .ERROR => 2
  | .CRITICAL => 3

inductive AlertCategory where
  | CPU
  | MEMORY
  | DISK
  | APT
  | CVE
  | SERVICE
  | SYSTEM
  deriving DecidableEq, Repr

/-- Numeric code of a category, as produced by `static_cast<int>(category)`. -/
def AlertCategory.code : AlertCategory → Nat
  | .CPU => 0
  | .MEMORY => 1
  | .DISK => 2
  | .APT => 3
  | .CVE => 4
  | .SERVICE => 5
  | .SYSTEM => 6

inductive AlertStatus where
  | ACTIVE
  | ACKNOWLEDGED
  | DISMISSED
  deriving DecidableEq, Repr

/-- An alert row, as persisted in the `alerts` table.  Timestamps are modelled
as natural numbers (seconds); the RFC-3339 string formatting of
`alert_manager.cpp` is injective on them and irrelevant to the claims. -/
structure Alert where
  uuid : String
  severity : AlertSeverity
  category : AlertCategory
  source : String
  message : String
  description : String
  timestamp : Nat
  status : AlertStatus
  acknowledgedAt : Option Nat
  dismissedAt : Option Nat
  deriving DecidableEq, Repr

/-! ## Alert store (`AlertManager`, alert_manager.cpp) -/

/-- The five in-memory counters (`count_info_` … `count_total_`). -/
structure AlertCounters where
  info : Int
  warning : Int
  error : Int
  critical : Int
  total : Int
  deriving DecidableEq, Repr

def AlertCounters.zero : AlertCounters := ⟨0, 0, 0, 0, 0⟩

/-- State of the alert store: the table rows (in insertion order) and the
counters. -/
structure AlertStore where
  rows : List Alert
  counters : AlertCounters
  deriving DecidableEq, Repr

/-- `AlertManager::update_counters`: bump the counter of one severity and the
total by `delta`. -/
def updateCounters (c : AlertCounters) (sev : AlertSeverity) (delta : Int) :
    AlertCounters :=
  let c1 :=
    match sev with
    | .INFO => { c with info := c.info + delta }
    | .WARNING => { c with warning := c.warning + delta }
    | .ERROR => { c with error := c.error + delta }
    | .CRITICAL => { c with critical := c.critical + delta }
  { c1 with total := c1.total + delta }

/-- Number of rows with status ≠ DISMISSED of one severity (the GROUP BY
query prepared as `stmt_count_`). -/
def nonDismissedCount (rows : List Alert) (sev : AlertSeverity) : Nat :=
  rows.countP (fun r => !(r.status == .DISMISSED) && r.severity == sev)

/-- `AlertManager::load_initial_counters`: per-severity counters are stored
only for severities that appear in the GROUP BY result (a group with no rows
leaves the previous atomic untouched); the total is reset and recomputed as
the sum of the returned group counts. -/
def loadInitialCounters (st : AlertStore) : AlertStore :=
  let cnt := fun sev => (nonDismissedCount st.rows sev : Int)
  let upd := fun sev (old : Int) => if 0 < cnt sev then cnt sev else old
  { st with
    counters :=
      { info := upd .INFO st.counters.info
        warning := upd .WARNING st.counters.warning
        error := upd .ERROR st.counters.error
        critical := upd .CRITICAL st.counters.critical
        total := cnt .INFO + cnt .WARNING + cnt .ERROR + cnt .CRITICAL } }

/-- `AlertManager::initialize` on a database whose table already holds `rows`:
the counter atomics are zero-initialised and then populated by
`load_initial_counters`.  (`initialize` also opens the database and prepares
statements; those effects are outside the model.) -/
def initManager (rows : List Alert) : AlertStore :=
  loadInitialCounters { rows := rows, counters := AlertCounters.zero }

/-- The row `create_alert` actually inserts: a fresh UUID when none was
given, the current time when the timestamp was zero. -/
def insertedRow (fresh : String) (now : Nat) (a : Alert) : Alert :=
  { a with
    uuid := if a.uuid = "" then fresh else a.uuid
    timestamp := if a.timestamp = 0 then now else a.timestamp }

/-- `AlertManager::create_alert`.  `fresh` is the UUID `generate_uuid` would
produce; `insertOk` models the SQLite driver accepting the INSERT step
(`rc == SQLITE_DONE`); a primary-key collision on `uuid` also fails the
insert.  On failure the store (rows and counters) is untouched and `none` is
returned. -/
def createAlert (fresh : String) (insertOk : Bool) (now : Nat) (a : Alert)
    (st : AlertStore) : Option Alert × AlertStore :=
  let a2 : Alert := insertedRow fresh now a
  if insertOk && !(st.rows.any (fun r => r.uuid == a2.uuid)) then
    let st1 := { st with rows := st.rows ++ [a2] }
    if a2.status = .ACTIVE then
      (some a2, { st1 with counters := updateCounters st1.counters a2.severity 1 })
    else
      (some a2, st1)
  else
    (none, st)

/-- `AlertManager::get_alert`: the row with the given primary key. -/
def getAlert (st : AlertStore) (u : String) : Option Alert :=
  st.rows.find? (fun r => r.uuid == u)

/-- `AlertManager::acknowledge_alert`: look the row up first; only an ACTIVE
row is updated, `acknowledged_at` is stamped, and on a positive change count
the severity counter is decremented. -/
def acknowledgeAlert (u : String) (now : Nat) (st : AlertStore) :
    Bool × AlertStore :=
  match getAlert st u with
  | none => (false, st)
  | some a =>
    if a.status = .ACTIVE then
      let rows2 := st.rows.map (fun r =>
        if r.uuid == u then { r with status := .ACKNOWLEDGED, acknowledgedAt := some now }
        else r)
      let changes := st.rows.countP (fun r => r.uuid == u)
      if 0 < changes then
        (true, { rows := rows2, counters := updateCounters st.counters a.severity (-1) })
      else
        (false, { st with rows := rows2 })
    else
      (false, st)

/-- `AlertManager::acknowledge_all`: one UPDATE over all ACTIVE rows; when it
changed at least one row, all five counters are reset to zero inside the same
critical section.  Returns the change count. -/
def acknowledgeAll (now : Nat) (st : AlertStore) : Nat × AlertStore :=
  let changes := st.rows.countP (fun r => r.status == .ACTIVE)
  let rows2 := st.rows.map (fun r =>
    if r.status == .ACTIVE then { r with status := .ACKNOWLEDGED, acknowledgedAt := some now }
    else r)
  if 0 < changes then
    (changes, { rows := rows2, counters := AlertCounters.zero })
  else
    (changes, { st with rows := rows2 })

/-- `AlertManager::dismiss_alert`: the row is looked up first; the UPDATE
always stamps DISMISSED, and the counters are decremented only when the prior
status was ACTIVE. -/
def dismissAlert (u : String) (now : Nat) (st : AlertStore) :
    Bool × AlertStore :=
  match getAlert st u with
  | none => (false, st)
  | some a =>
    let shouldUpdate := a.status = .ACTIVE || a.status = .ACKNOWLEDGED
    let rows2 := st.rows.map (fun r =>
      if r.uuid == u then { r with status := .DISMISSED, dismissedAt := some now }
      else r)
    let changes := st.rows.countP (fun r => r.uuid == u)
    if 0 < changes then
      if shouldUpdate && a.status = .ACTIVE then
        (true, { rows := rows2, counters := updateCounters st.counters a.severity (-1) })
      else
        (true, { st with rows := rows2 })
    else
      (false, { st with rows := rows2 })

/-- One mutating store operation, for reasoning about arbitrary operation
sequences.  A `create` carries the UUID `generate_uuid` would produce and the
driver outcome of its INSERT. -/
inductive StoreOp where
  | create (a : Alert) (fresh : String) (insertOk : Bool) (now : Nat)
  | acknowledge (u : String) (now : Nat)
  | ackAll (now : Nat)
  | dismiss (u : String) (now : Nat)

def applyStoreOp (op : StoreOp) (st : AlertStore) : AlertStore :=
  match op with
  | .create a fresh insertOk now => (createAlert fresh insertOk now a st).2
  | .acknowledge u now => (acknowledgeAlert u now st).2
  | .ackAll now => (acknowledgeAll now st).2
  | .dismiss u now => (dismissAlert u now st).2

def applyStoreOps (ops : List StoreOp) (st : AlertStore) : AlertStore :=
  ops.foldl (fun s op => applyStoreOp op s) st

/-- Number of ACTIVE rows of one severity. -/
def activeCount (rows : List Alert) (sev : AlertSeverity) : Nat :=
  rows.countP (fun r => r.status == .ACTIVE && r.severity == sev)

/-- Number of ACTIVE rows overall. -/
def activeTotal (rows : List Alert) : Nat :=
  rows.countP (fun r => r.status == .ACTIVE)

/-- The invariant the claim C2 states: counters equal the per-severity counts
of rows with status ≠ DISMISSED, plus their sum. -/
def countersMatchNonDismissed (st : AlertStore) : Prop :=
  st.counters.info = (nonDismissedCount st.rows .INFO : Int) ∧
  st.counters.warning = (nonDismissedCount st.rows .WARNING : Int) ∧
  st.counters.error = (nonDismissedCount st.rows .ERROR : Int) ∧
  st.counters.critical = (nonDismissedCount st.rows .CRITICAL : Int) ∧
  st.counters.total = (nonDismissedCount st.rows .INFO : Int) +
    (nonDismissedCount st.rows .WARNING : Int) +
    (nonDismissedCount st.rows .ERROR : Int) +
    (nonDismissedCount st.rows .CRITICAL : Int)

instance (st : AlertStore) : Decidable (countersMatchNonDismissed st) := by
  unfold countersMatchNonDismissed; infer_instance

/-- The invariant the store actually maintains: counters equal the
per-severity counts of ACTIVE rows, plus their sum. -/
def countersMatchActive (st : AlertStore) : Prop :=
  st.counters.info = (activeCount st.rows .INFO : Int) ∧
  st.counters.warning = (activeCount st.rows .WARNING : Int) ∧
  st.counters.error = (activeCount st.rows .ERROR : Int) ∧
  st.counters.critical = (activeCount st.rows .CRITICAL : Int) ∧
  st.counters.total = (activeTotal st.rows : Int)

instance (st : AlertStore) : Decidable (countersMatchActive st) := by
  unfold countersMatchActive; infer_instance

/-! ## Threshold engine (`SystemMonitor`, system_monitor.cpp) -/

/-- The fields of a health snapshot read by `check_thresholds`.  Percentages
are modelled as rationals (the comparison structure of the doubles). -/
structure SystemHealth where
  cpuUsagePercent : ℚ
  memoryUsagePercent : ℚ
  diskUsagePercent : ℚ
  diskMountPoint : String
  failedServicesCount : Int
  deriving DecidableEq, Repr

/-- `MonitoringThresholds` (system_monitor.h). -/
structure MonitoringThresholds where
  cpuWarning : ℚ
  cpuCritical : ℚ
  memoryWarning : ℚ
  memoryCritical : ℚ
  diskWarning : ℚ
  diskCritical : ℚ
  deriving DecidableEq, Repr

/-- `static_cast<int>` of a C++ double: truncation toward zero. -/
def cppTruncInt (q : ℚ) : Int :=
  if 0 ≤ q then q.floor else -((-q).floor)

/-- The deduplication key built both in `check_thresholds` and in
`create_basic_alert`:
`to_string(int(category)) ++ ":" ++ to_string(int(severity)) ++ ":" ++ source ++ ":" ++ message`. -/
def alertKeyOf (cat : AlertCategory) (sev : AlertSeverity)
    (source message : String) : String :=
  toString cat.code ++ ":" ++ toString sev.code ++ ":" ++ source ++ ":" ++ message

/-- `unordered_set::erase` on the firing-key set: the key is removed
entirely. -/
def eraseKey (l : List String) (k : String) : List String :=
  l.filter (fun x => !(x == k))

/-- State owned by the threshold engine: the firing-key set
(`active_alert_keys_`) and the alert store it writes through
(`alert_manager_`). -/
structure MonitorState where
  activeAlertKeys : List String
  store : AlertStore
  deriving DecidableEq, Repr

/-- The `Alert` record `create_basic_alert` fills in before calling
`create_alert`: no uuid yet, status ACTIVE, timestamp now. -/
def basicAlert (sev : AlertSeverity) (cat : AlertCategory)
    (source message description : String) (now : Nat) : Alert :=
  { uuid := ""
    severity := sev
    category := cat
    source := source
    message := message
    description := description
    timestamp := now
    status := .ACTIVE
    acknowledgedAt := none
    dismissedAt := none }

/-- `SystemMonitor::create_basic_alert`.  The key is inserted into the
firing set *before* `create_alert` is called; if the key is already present
nothing happens; if `create_alert` returns none the key is erased again.
`fresh` and `ok` give, per key, the UUID `generate_uuid` would produce and
the driver outcome of the INSERT. -/
def createBasicAlert (sev : AlertSeverity) (cat : AlertCategory)
    (source message description : String)
    (fresh : String → String) (ok : String → Bool) (now : Nat)
    (s : MonitorState) : MonitorState :=
  let key := alertKeyOf cat sev source message
  if key ∈ s.activeAlertKeys then
    s
  else
    let keys1 := key :: s.activeAlertKeys
    match createAlert (fresh key) (ok key) now
        (basicAlert sev cat source message description now) s.store with
    | (none, store1) => { activeAlertKeys := eraseKey keys1 key, store := store1 }
    | (some _, store1) => { activeAlertKeys := keys1, store := store1 }

/-- One of the three metric blocks of `check_thresholds` (CPU, memory, disk):
crit band raises the critical alert; warn band raises the warning alert and
erases the critical key (downgrade); none band erases both keys
(recovery). -/
def bandBlock (cat : AlertCategory) (metric warnT critT : ℚ)
    (critMsg warnMsg critDesc warnDesc : String)
    (fresh : String → String) (ok : String → Bool) (now : Nat)
    (s : MonitorState) : MonitorState :=
  let critKey := alertKeyOf cat .CRITICAL "system_monitor" critMsg
  let warnKey := alertKeyOf cat .WARNING "system_monitor" warnMsg
  if critT ≤ metric then
    createBasicAlert .CRITICAL cat "system_monitor" critMsg critDesc fresh ok now s
  else if warnT ≤ metric then
    let s1 := createBasicAlert .WARNING cat "system_monitor" warnMsg warnDesc fresh ok now s
    { s1 with activeAlertKeys := eraseKey s1.activeAlertKeys critKey }
  else
    { s with activeAlertKeys := eraseKey (eraseKey s.activeAlertKeys critKey) warnKey }

/-- The failed-services block of `check_thresholds`. -/
def serviceBlock (failed : Int) (fresh : String → String) (ok : String → Bool)
    (now : Nat) (s : MonitorState) : MonitorState :=
  let svcKey := alertKeyOf .SERVICE .ERROR "system_monitor"
    "Failed systemd services detected"
  if 0 < failed then
    createBasicAlert .ERROR .SERVICE "system_monitor"
      "Failed systemd services detected"
      (toString failed ++ " systemd service(s) are in failed state")
      fresh ok now s
  else
    { s with activeAlertKeys := eraseKey s.activeAlertKeys svcKey }

/-- Inputs of one monitor tick: the snapshot plus the environment outcomes
(UUIDs and driver results per key, current time). -/
structure TickInput where
  health : SystemHealth
  fresh : String → String
  ok : String → Bool
  now : Nat

/-- `SystemMonitor::check_thresholds` on one snapshot: the CPU, memory, disk
and failed-services blocks in source order, with the exact message and
description strings of the source. -/
def checkThresholds (t : MonitoringThresholds) (i : TickInput)
    (s : MonitorState) : MonitorState :=
  let h := i.health
  let s1 := bandBlock .CPU h.cpuUsagePercent t.cpuWarning t.cpuCritical
    "CPU usage critical" "CPU usage high"
    ("CPU usage is at " ++ toString (cppTruncInt h.cpuUsagePercent) ++
      "% (threshold: " ++ toString (cppTruncInt t.cpuCritical) ++ "%)")
    ("CPU usage is at " ++ toString (cppTruncInt h.cpuUsagePercent) ++
      "% (threshold: " ++ toString (cppTruncInt t.cpuWarning) ++ "%)")
    i.fresh i.ok i.now s
  let s2 := bandBlock .MEMORY h.memoryUsagePercent t.memoryWarning t.memoryCritical
    "Memory usage critical" "Memory usage high"
    ("Memory usage is at " ++ toString (cppTruncInt h.memoryUsagePercent) ++
      "% (threshold: " ++ toString (cppTruncInt t.memoryCritical) ++ "%)")
    ("Memory usage is at " ++ toString (cppTruncInt h.memoryUsagePercent) ++
      "% (threshold: " ++ toString (cppTruncInt t.memoryWarning) ++ "%)")
    i.fresh i.ok i.now s1
  let s3 := bandBlock .DISK h.diskUsagePercent t.diskWarning t.diskCritical
    "Disk usage critical" "Disk usage high"
    ("Disk usage on " ++ h.diskMountPoint ++ " is at " ++
      toString (cppTruncInt h.diskUsagePercent) ++
      "% (threshold: " ++ toString (cppTruncInt t.diskCritical) ++ "%)")
    ("Disk usage on " ++ h.diskMountPoint ++ " is at " ++
      toString (cppTruncInt h.diskUsagePercent) ++
      "% (threshold: " ++ toString (cppTruncInt t.diskWarning) ++ "%)")
    i.fresh i.ok i.now s2
  serviceBlock h.failedServicesCount i.fresh i.ok i.now s3

/-- Processing a sequence of monitor ticks. -/
def processTicks (t : MonitoringThresholds) (is : List TickInput)
    (s : MonitorState) : MonitorState :=
  is.foldl (fun st i => checkThresholds t i st) s

/-- All states visited while processing ticks, the initial one included. -/
def tickStates (t : MonitoringThresholds) (is : List TickInput)
    (s : MonitorState) : List MonitorState :=
  is.scanl (fun st i => checkThresholds t i st) s

/-- The deduplication key of a stored row. -/
def rowKey (r : Alert) : String :=
  alertKeyOf r.category r.severity r.source r.message

/-- Number of ACTIVE rows whose deduplication key is `k`. -/
def countActiveKeyRows (rows : List Alert) (k : String) : Nat :=
  rows.countP (fun r => rowKey r == k && r.status == .ACTIVE)

/-- Number of ACTIVE rows of one category. -/
def countCatActive (rows : List Alert) (c : AlertCategory) : Nat :=
  rows.countP (fun r => r.category == c && r.status == .ACTIVE)

/-- The metric of a snapshot that a band category compares (zero for the
non-band categories). -/
def metricOf (c : AlertCategory) (h : SystemHealth) : ℚ :=
  match c with
  | .CPU => h.cpuUsagePercent
  | .MEMORY => h.memoryUsagePercent
  | .DISK => h.diskUsagePercent
  | _ => 0

def warnThresholdOf (c : AlertCategory) (t : MonitoringThresholds) : ℚ :=
  match c with
  | .CPU => t.cpuWarning
  | .MEMORY => t.memoryWarning
  | .DISK => t.diskWarning
  | _ => 0

def critThresholdOf (c : AlertCategory) (t : MonitoringThresholds) : ℚ :=
  match c with
  | .CPU => t.cpuCritical
  | .MEMORY => t.memoryCritical
  | .DISK => t.diskCritical
  | _ => 0

/-- The warning-alert message of a band category. -/
def warnMsgOf (c : AlertCategory) : String :=
  match c with
  | .CPU => "CPU usage high"
  | .MEMORY => "Memory usage high"
  | .DISK => "Disk usage high"
  | _ => ""

/-- The critical-alert message of a band category. -/
def critMsgOf (c : AlertCategory) : String :=
  match c with
  | .CPU => "CPU usage critical"
  | .MEMORY => "Memory usage critical"
  | .DISK => "Disk usage critical"
  | _ => ""

def warnKeyOfCat (c : AlertCategory) : String :=
  alertKeyOf c .WARNING "system_monitor" (warnMsgOf c)

def critKeyOfCat (c : AlertCategory) : String :=
  alertKeyOf c .CRITICAL "system_monitor" (critMsgOf c)

/-- The `none` band of `check_thresholds` for a category: the snapshot falls
into the final else branch (neither the critical nor the warning comparison
holds). -/
def noneBandFor (c : AlertCategory) (t : MonitoringThresholds)
    (h : SystemHealth) : Prop :=
  ¬ critThresholdOf c t ≤ metricOf c h ∧ ¬ warnThresholdOf c t ≤ metricOf c h

instance (c : AlertCategory) (t : MonitoringThresholds) (h : SystemHealth) :
    Decidable (noneBandFor c t h) := by
  unfold noneBandFor; infer_instance

/-! ## IPC rate limiter (`RateLimiter`, server.cpp) -/

/-- State of the fixed-window rate limiter.  Times are steady-clock
milliseconds. -/
structure RateLimiter where
  maxPerSecond : Int
  windowStart : Int
  count : Int
  deriving DecidableEq, Repr

/-- `RateLimiter::allow` at time `now`: reset the window when at least
1000 ms elapsed since the window start, then admit iff the counter is below
the maximum. -/
def RateLimiter.allow (s : RateLimiter) (now : Int) : RateLimiter × Bool :=
  let s1 :=
    if 1000 ≤ now - s.windowStart then
      { s with count := 0, windowStart := now }
    else s
  if s1.maxPerSecond ≤ s1.count then
    (s1, false)
  else
    ({ s1 with count := s1.count + 1 }, true)

/-- Record of one `allow` call: its time, the window start in effect when the
decision was taken (after any reset), and whether it was admitted. -/
structure CallRecord where
  time : Int
  ws : Int
  admitted : Bool
  deriving DecidableEq, Repr

/-- Run the limiter over a list of call times, recording every decision. -/
def rlRun (s : RateLimiter) : List Int → RateLimiter × List CallRecord
  | [] => (s, [])
  | t :: ts =>
    let p := s.allow t
    let rest := rlRun p.1 ts
    (rest.1, ⟨t, p.1.windowStart, p.2⟩ :: rest.2)

/-- Number of admitted calls decided in the limiter window that started at
`w`. -/
def admittedInLimiterWindow (recs : List CallRecord) (w : Int) : Nat :=
  recs.countP (fun r => r.admitted && r.ws == w)

/-- Times of the admitted calls. -/
def admittedTimes (recs : List CallRecord) : List Int :=
  (recs.filter (fun r => r.admitted)).map (fun r => r.time)

/-- Number of times falling in the wall-clock window `[w, w + 1000)`. -/
def countWithinSecond (times : List Int) (w : Int) : Nat :=
  times.countP (fun τ => w ≤ τ && τ < w + 1000)

/-! ## IPC server stop/drain (`IPCServer`, server.cpp)

The per-connection concurrency of `handle_client` against `stop` is modelled
as a labelled transition system.  `begin` is the entry of `handle_client`
(increment of `active_connections_`), `end` its exit (decrement and signal);
`stop` is split into its three phases: clearing `running_` and shutting the
listening socket, joining the accept thread (after which no handler can
begin, because handlers run inline in that thread), and the wait on
`connections_cv_` for `active_connections_ == 0` followed by
`cleanup_socket` (the unlink). -/

structure ServerState where
  running : Bool
  acceptJoined : Bool
  activeConnections : Nat
  begunHandlers : Nat
  endedHandlers : Nat
  socketUnlinked : Bool
  stopReturned : Bool
  deriving DecidableEq, Repr

inductive ServerStep : ServerState → ServerState → Prop where
  | beginHandler (s : ServerState) (h : s.acceptJoined = false) :
      ServerStep s
        { s with
          activeConnections := s.activeConnections + 1
          begunHandlers := s.begunHandlers + 1 }
  | endHandler (s : ServerState) (h : 0 < s.activeConnections) :
      ServerStep s
        { s with
          activeConnections := s.activeConnections - 1
          endedHandlers := s.endedHandlers + 1 }
  | stopShutdown (s : ServerState) (h : s.running = true) :
      ServerStep s { s with running := false }
  | stopJoinAccept (s : ServerState) (h : s.running = false) :
      ServerStep s { s with acceptJoined := true }
  | stopDrainUnlink (s : ServerState) (h1 : s.acceptJoined = true)
      (h2 : s.activeConnections = 0) :
      ServerStep s { s with socketUnlinked := true, stopReturned := true }

/-- The server just after `start()`: accept loop running, no connection yet,
socket file present. -/
def serverInit : ServerState :=
  { running := true
    acceptJoined := false
    activeConnections := 0
    begunHandlers := 0
    endedHandlers := 0
    socketUnlinked := false
    stopReturned := false }

def ServerReachable (s : ServerState) : Prop :=
  Relation.ReflTransGen ServerStep serverInit s

/-! ## LLM engine queue (`LLMEngine`, engine.cpp) -/

/-- The outcome fields of `InferenceResult` relevant to the queue claims
(wall time, a float, is omitted). -/
structure InferenceResult where
  requestId : String
  output : String
  tokensGenerated : Int
  success : Bool
  error : String
  deriving DecidableEq, Repr

/-- A `QueuedRequest`: its request id and the state of its promise (`none` =
the future is still unfulfilled). -/
structure QueuedRequest where
  requestId : String
  promiseValue : Option InferenceResult
  deriving DecidableEq, Repr

/-- Engine state for the queue claims: the running flag, the FIFO of queued
requests, and the requests whose promise has been completed and which left
the queue. -/
structure EngineState where
  running : Bool
  requestQueue : List QueuedRequest
  completed : List QueuedRequest
  deriving DecidableEq, Repr

/-- `LLMEngine::stop`: clears the running flag, signals the queue condition,
joins the worker (which exits its loop on the cleared flag without touching
the remaining queue), and unloads the model.  No queued promise is
completed. -/
def stopEngine (s : EngineState) : EngineState :=
  { s with running := false }

/-- The result `clear_queue` fulfils a queued promise with. -/
def clearedResult (id : String) : InferenceResult :=
  { requestId := id
    output := ""
    tokensGenerated := 0
    success := false
    error := "Queue cleared" }

/-- `LLMEngine::clear_queue`: pops every queued request and completes its
promise with a failure result whose error text is "Queue cleared". -/
def clearQueue (s : EngineState) : EngineState :=
  { s with
    requestQueue := []
    completed := s.completed ++
      s.requestQueue.map (fun q =>
        { q with promiseValue := some (clearedResult q.requestId) }) }

/-! ## Configuration (`Config` / `ConfigManager`, config.cpp) -/

/-- The configuration record (config.h). -/
structure Config where
  socketPath : String
  socketBacklog : Int
  socketTimeoutMs : Int
  modelPath : String
  llmContextLength : Int
  llmThreads : Int
  llmBatchSize : Int
  llmLazyLoad : Bool
  llmMmap : Bool
  monitorIntervalSec : Int
  enableAptMonitor : Bool
  enableCveScanner : Bool
  enableDependencyChecker : Bool
  diskWarnThreshold : ℚ
  diskCritThreshold : ℚ
  memWarnThreshold : ℚ
  memCritThreshold : ℚ
  alertDbPath : String
  alertRetentionHours : Int
  enableAiAlerts : Bool
  maxRequestsPerSec : Int
  maxInferenceQueue : Int
  logLevel : Int
  deriving DecidableEq, Repr

/-- `Config::validate`: each checked field in turn; the first failing check
produces its error string; an empty string means valid.  (The function
compares no warning threshold against its critical threshold.) -/
def Config.validate (c : Config) : String :=
  if c.socketBacklog ≤ 0 then "socket_backlog must be positive"
  else if c.socketTimeoutMs ≤ 0 then "socket_timeout_ms must be positive"
  else if c.llmContextLength ≤ 0 then "llm_context_length must be positive"
  else if c.llmThreads ≤ 0 then "llm_threads must be positive"
  else if c.monitorIntervalSec ≤ 0 then "monitor_interval_sec must be positive"
  else if c.diskWarnThreshold ≤ 0 ∨ 1 < c.diskWarnThreshold then
    "disk_warn_threshold must be between 0 and 1"
  else if c.diskCritThreshold ≤ 0 ∨ 1 < c.diskCritThreshold then
    "disk_crit_threshold must be between 0 and 1"
  else if c.memWarnThreshold ≤ 0 ∨ 1 < c.memWarnThreshold then
    "mem_warn_threshold must be between 0 and 1"
  else if c.memCritThreshold ≤ 0 ∨ 1 < c.memCritThreshold then
    "mem_crit_threshold must be between 0 and 1"
  else ""

/-- Modelled from the spec: `expand_path` (declared in `common.h`, whose
implementation is not among the extracted sources) expands a leading `~` of a
path against the caller's home directory and leaves other paths unchanged. -/
def expandPath (home path : String) : String :=
  if path.startsWith "~" then home ++ path.drop 1 else path

/-- `Config::expand_paths`: expand the three path-valued fields. -/
def Config.expandPaths (home : String) (c : Config) : Config :=
  { c with
    socketPath := expandPath home c.socketPath
    modelPath := expandPath home c.modelPath
    alertDbPath := expandPath home c.alertDbPath }

/-- Modelled from the spec: `Config::defaults` returns the member-initialised
record of config.h.  The initialiser constants live in `common.h` (not among
the extracted sources); the values below are the ones pinned by
tests/unit/test_config.cpp where known, and spec-consistent values
elsewhere.  No claim depends on the particular values, only on the record
being *the* default one. -/
def Config.defaults : Config :=
  { socketPath := "/run/cortex/cortex.sock"
    socketBacklog := 16
    socketTimeoutMs := 5000
    modelPath := ""
    llmContextLength := 2048
    llmThreads := 4
    llmBatchSize := 512
    llmLazyLoad := true
    llmMmap := true
    monitorIntervalSec := 60
    enableAptMonitor := true
    enableCveScanner := true
    enableDependencyChecker := true
    diskWarnThreshold := mkRat 17 20
    diskCritThreshold := mkRat 19 20
    memWarnThreshold := mkRat 17 20
    memCritThreshold := mkRat 19 20
    alertDbPath := "/var/lib/cortex/alerts.db"
    alertRetentionHours := 168
    enableAiAlerts := true
    maxRequestsPerSec := 100
    maxInferenceQueue := 10
    logLevel := 1 }

/-- Outcome of opening and parsing the configuration file at a path: the file
may be missing/unreadable, YAML parsing may throw, or it yields a parsed
record (defaults overridden by the present fields). -/
inductive LoadOutcome where
  | missing
  | parseFailure
  | parsed (c : Config)

/-- `Config::load` on a file with the given outcome: a missing file or a
parse failure yields none; a parsed record has its paths expanded and is
validated, and a validation error also yields none. -/
def configLoad (home : String) (o : LoadOutcome) : Option Config :=
  match o with
  | .missing => none
  | .parseFailure => none
  | .parsed c =>
    let c1 := c.expandPaths home
    if c1.validate = "" then some c1 else none

/-- State of the `ConfigManager` singleton: the current record and the stored
configuration path (empty when no load succeeded yet). -/
structure ConfigManagerState where
  config : Config
  configPath : String
  deriving DecidableEq, Repr

/-- `ConfigManager::load`: on failure the defaults are installed (with paths
expanded) and `false` is returned — the stored path is *not* set; on success
the record and the path are installed and `true` is returned. -/
def managerLoad (home path : String) (o : LoadOutcome)
    (st : ConfigManagerState) : Bool × ConfigManagerState :=
  match configLoad home o with
  | none => (false, { st with config := Config.defaults.expandPaths home })
  | some c => (true, { config := c, configPath := path })

/-- `ConfigManager::reload`: fails fast when no path is stored; otherwise
reloads from the stored path, keeping the old record on any failure. -/
def managerReload (home : String) (o : LoadOutcome)
    (st : ConfigManagerState) : Bool × ConfigManagerState :=
  if st.configPath = "" then
    (false, st)
  else
    match configLoad home o with
    | none => (false, st)
    | some c => (true, { st with config := c })

/-! ## `alerts.acknowledge` handler (handlers.cpp)

A minimal JSON value model, enough for the parameter handling of
`Handlers::handle_alerts_acknowledge` and the exception behaviour of
`nlohmann::json::get<bool>` (it throws a type error on a non-boolean value,
which `IPCServer::dispatch` turns into an INTERNAL_ERROR response). -/

inductive Json where
  | null
  | bool (b : Bool)
  | num (n : Int)
  | str (s : String)
  | arr (elems : List Json)
  | obj (fields : List (String × Json))

/-- `json::is_object`. -/
def Json.isObject : Json → Bool
  | .obj _ => true
  | _ => false

/-- Field lookup on an object (`operator[]` on a contained key). -/
def Json.getField (j : Json) (k : String) : Option Json :=
  match j with
  | .obj fields => (fields.find? (fun f => f.1 == k)).map (fun f => f.2)
  | _ => none

/-- `json::contains`. -/
def Json.containsField (j : Json) (k : String) : Bool :=
  (j.getField k).isSome

/-- `get<bool>()`: throws a type error unless the value is a boolean. -/
def Json.getBool (j : Json) : Except String Bool :=
  match j with
  | .bool b => Except.ok b
  | _ => Except.error "type must be boolean"

/-- `get<std::string>()`: throws a type error unless the value is a string. -/
def Json.getString (j : Json) : Except String String :=
  match j with
  | .str s => Except.ok s
  | _ => Except.error "type must be string"

/-- Error codes of protocol.h used by the handler. -/
def ALERT_NOT_FOUND : Int := 103
def INTERNAL_ERROR : Int := -32603

/-- An IPC response (protocol.h), with the result as a JSON value. -/
structure Response where
  success : Bool
  result : Json
  error : String
  errorCode : Int

/-- `Response::ok`. -/
def Response.okResp (result : Json) : Response :=
  { success := true, result := result, error := "", errorCode := 0 }

/-- `Response::err`. -/
def Response.errResp (message : String) (code : Int) : Response :=
  { success := false, result := Json.null, error := message, errorCode := code }

/-- `Handlers::handle_alerts_acknowledge`, body only (the alert manager is
registered, hence non-null): all-flag branch, uuid branch, and the default
branch that acknowledges everything.  A thrown type error propagates to the
caller as `Except.error`. -/
def handleAlertsAcknowledge (params : Json) (now : Nat) (st : AlertStore) :
    Except String (Response × AlertStore) :=
  if params.isObject && params.containsField "all" then
    match (params.getField "all").getD Json.null |>.getBool with
    | .error e => .error e
    | .ok true =>
      let p := acknowledgeAll now st
      .ok (Response.okResp (Json.obj
        [("acknowledged", Json.num p.1),
         ("message", Json.str ("Acknowledged " ++ toString p.1 ++ " alert(s)"))]),
        p.2)
    | .ok false =>
      if params.isObject && params.containsField "uuid" then
        match (params.getField "uuid").getD Json.null |>.getString with
        | .error e => .error e
        | .ok u =>
          let p := acknowledgeAlert u now st
          if p.1 then
            .ok (Response.okResp (Json.obj
              [("acknowledged", Json.bool true), ("uuid", Json.str u)]), p.2)
          else
            .ok (Response.errResp "Alert not found or already acknowledged"
              ALERT_NOT_FOUND, p.2)
      else
        let p := acknowledgeAll now st
        .ok (Response.okResp (Json.obj
          [("acknowledged", Json.num p.1),
           ("message", Json.str ("Acknowledged " ++ toString p.1 ++ " alert(s)"))]),
          p.2)
  else if params.isObject && params.containsField "uuid" then
    match (params.getField "uuid").getD Json.null |>.getString with
    | .error e => .error e
    | .ok u =>
      let p := acknowledgeAlert u now st
      if p.1 then
        .ok (Response.okResp (Json.obj
          [("acknowledged", Json.bool true), ("uuid", Json.str u)]), p.2)
      else
        .ok (Response.errResp "Alert not found or already acknowledged"
          ALERT_NOT_FOUND, p.2)
  else
    let p := acknowledgeAll now st
    .ok (Response.okResp (Json.obj
      [("acknowledged", Json.num p.1),
       ("message", Json.str ("Acknowledged " ++ toString p.1 ++ " alert(s)"))]),
      p.2)

/-- `IPCServer::dispatch` around the handler: a thrown exception becomes an
INTERNAL_ERROR response and leaves the store as the handler left it before
throwing (the acknowledge handler throws before any store mutation). -/
def dispatchAlertsAcknowledge (params : Json) (now : Nat) (st : AlertStore) :
    Response × AlertStore :=
  match handleAlertsAcknowledge params now st with
  | .ok p => p
  | .error e => (Response.errResp e INTERNAL_ERROR, st)

/-! ## Inductive invariant of the server transition system -/

/-- The state invariant of the server model: in-flight handlers are exactly
the begun-but-not-ended ones; the socket is unlinked only after the accept
thread is joined and the in-flight count has drained to zero; `stop` has
returned only once the socket is unlinked. -/
def serverInv (s : ServerState) : Prop :=
  s.activeConnections + s.endedHandlers = s.begunHandlers ∧
  (s.socketUnlinked = true → s.acceptJoined = true ∧ s.activeConnections = 0) ∧
  (s.stopReturned = true → s.socketUnlinked = true)

/-! ## Concrete scenario inputs for counterexamples and witnesses -/

/-- An ACTIVE WARNING alert with a fixed uuid. -/
def wAlert : Alert :=
  { uuid := "a1", severity := .WARNING, category := .SYSTEM, source := "test",
    message := "m", description := "", timestamp := 5, status := .ACTIVE,
    acknowledgedAt := none, dismissedAt := none }

/-- Initialise on an empty database, create `wAlert`, acknowledge it. -/
def ackScenario : AlertStore :=
  applyStoreOps [.create wAlert "u0" true 5, .acknowledge "a1" 6] (initManager [])

/-- A snapshot whose only nonzero metric is disk usage. -/
def diskHealth (q : ℚ) : SystemHealth :=
  { cpuUsagePercent := 0, memoryUsagePercent := 0, diskUsagePercent := q,
    diskMountPoint := "/", failedServicesCount := 0 }

/-- Thresholds with disk warn 80 / crit 95 and CPU/memory out of reach. -/
def monThresholds : MonitoringThresholds :=
  { cpuWarning := 101, cpuCritical := 102, memoryWarning := 101,
    memoryCritical := 102, diskWarning := 80, diskCritical := 95 }

/-- A tick with the given disk usage, a constant fresh uuid and a succeeding
driver. -/
def diskTick (q : ℚ) (u : String) (n : Nat) : TickInput :=
  { health := diskHealth q, fresh := fun _ => u, ok := fun _ => true, now := n }

/-- Monitor state with an empty firing set over an empty store. -/
def emptyMon : MonitorState := { activeAlertKeys := [], store := initManager [] }

/-- Disk usage 85 (warn band), then 40 (recovery), then 85 again. -/
def warnNoneWarnTicks : List TickInput :=
  [diskTick 85 "u1" 1, diskTick 40 "u2" 2, diskTick 85 "u3" 3]

/-- Two consecutive warn-band snapshots. -/
def warnWarnTicks : List TickInput :=
  [diskTick 85 "v1" 1, diskTick 85 "v2" 2]

/-- Monitor state after one warn-band disk snapshot (one ACTIVE disk alert,
its key firing). -/
def c9State : MonitorState := processTicks monThresholds [diskTick 85 "w0" 0] emptyMon

/-- A recovery snapshot: disk usage 40 is below the warning threshold. -/
def c9NoneTick : TickInput := diskTick 40 "w1" 1

/-- A further none-band snapshot following the recovery. -/
def c9Tail : List TickInput := [diskTick 30 "w2" 2]

/-- A configuration whose disk thresholds are inverted (warn 0.9 > crit 0.5)
but which passes every individual range check. -/
def badConfig : Config :=
  { Config.defaults with
    diskWarnThreshold := mkRat 9 10
    diskCritThreshold := mkRat 1 2 }

/-- A running engine with one queued request whose future is unfulfilled. -/
def engineWithQueued : EngineState :=
  { running := true, requestQueue := [⟨"r1", none⟩], completed := [] }

/-- A store holding one ACTIVE INFO alert, freshly initialised. -/
def oneActiveStore : AlertStore :=
  initManager [⟨"b1", .INFO, .SYSTEM, "test", "m2", "", 4, .ACTIVE, none, none⟩]

/-- Manager state before any successful load (no stored path). -/
def mgrSt0 : ConfigManagerState := { config := Config.defaults, configPath := "" }

/-- Manager state after a successful load from a path. -/
def mgrStLoaded : ConfigManagerState :=
  { config := Config.defaults, configPath := "/etc/cortex/config.yaml" }

/-! # Theorems -/

/-! ## List helpers -/

/-- Updating the (unique, by Nodup of the uuids) row found by `find?` changes
a `countP` by swapping that row's contribution. -/
theorem countP_map_update (l : List Alert) (u : String) (g : Alert → Alert)
    (p : Alert → Bool) (hn : (l.map Alert.uuid).Nodup) (a : Alert)
    (ha : l.find? (fun r => r.uuid == u) = some a) :
    ((l.map (fun r => if r.uuid == u then g r else r)).countP p : Int)
      = (l.countP p : Int) + (if p (g a) then 1 else 0) - (if p a then 1 else 0) := by
  induction l with
  | nil => simp at ha
  | cons hd tl ih =>
    simp only [List.map_cons, List.nodup_cons] at hn
    by_cases hhd : (hd.uuid == u) = true
    · rw [List.find?_cons_of_pos (p := fun r => r.uuid == u) tl hhd] at ha
      injection ha with ha
      subst ha
      have hu : hd.uuid = u := by simpa using hhd
      have htl : ∀ r ∈ tl, ¬ ((r.uuid == u) = true) := by
        intro r hr hru
        apply hn.1
        have hmem : r.uuid ∈ List.map Alert.uuid tl := List.mem_map_of_mem Alert.uuid hr
        have hru' : r.uuid = u := by simpa using hru
        rwa [hru', ← hu] at hmem
      have hmap : tl.map (fun r => if r.uuid == u then g r else r) = tl := by
        rw [List.map_congr_left (fun r hr => if_neg (htl r hr))]
        exact List.map_id tl
      simp only [List.map_cons, if_pos hhd, hmap, List.countP_cons]
      rcases hpg : p (g hd) <;> rcases hpa : p hd <;>
        simp only [hpg, hpa, Bool.false_eq_true, eq_self_iff_true,
          if_true, if_false] <;> omega
    · rw [List.find?_cons_of_neg (p := fun r => r.uuid == u) tl (by simpa using hhd)] at ha
      have hih := ih hn.2 ha
      simp only [List.map_cons, if_neg hhd, List.countP_cons]
      rcases hpg : p (g a) <;> rcases hpa : p a <;> rcases hph : p hd <;>
        simp only [hpg, hpa, hph, Bool.false_eq_true, eq_self_iff_true,
          if_true, if_false] at hih ⊢ <;> omega

/-- Appending one row shifts the per-severity ACTIVE count by its
contribution. -/
theorem activeCount_append_single (rows : List Alert) (x : Alert)
    (sev : AlertSeverity) :
    activeCount (rows ++ [x]) sev =
      activeCount rows sev +
        (if x.status == AlertStatus.ACTIVE && x.severity == sev then 1 else 0) := by
  simp [activeCount, List.countP_append, List.countP_cons]

/-- Appending one row shifts the total ACTIVE count by its contribution. -/
theorem activeTotal_append_single (rows : List Alert) (x : Alert) :
    activeTotal (rows ++ [x]) =
      activeTotal rows + (if x.status == AlertStatus.ACTIVE then 1 else 0) := by
  simp [activeTotal, List.countP_append, List.countP_cons]

theorem updateCounters_info (c : AlertCounters) (sev : AlertSeverity) (d : Int) :
    (updateCounters c sev d).info = c.info + (if sev = .INFO then d else 0) := by
  cases sev <;> simp [updateCounters]

theorem updateCounters_warning (c : AlertCounters) (sev : AlertSeverity) (d : Int) :
    (updateCounters c sev d).warning = c.warning + (if sev = .WARNING then d else 0) := by
  cases sev <;> simp [updateCounters]

theorem updateCounters_error (c : AlertCounters) (sev : AlertSeverity) (d : Int) :
    (updateCounters c sev d).error = c.error + (if sev = .ERROR then d else 0) := by
  cases sev <;> simp [updateCounters]

theorem updateCounters_critical (c : AlertCounters) (sev : AlertSeverity) (d : Int) :
    (updateCounters c sev d).critical = c.critical + (if sev = .CRITICAL then d else 0) := by
  cases sev <;> simp [updateCounters]

theorem updateCounters_total (c : AlertCounters) (sev : AlertSeverity) (d : Int) :
    (updateCounters c sev d).total = c.total + d := by
  cases sev <;> simp [updateCounters]

/-- A row update that keeps uuids leaves the uuid list unchanged. -/
theorem map_ite_uuid (l : List Alert) (q : Alert → Bool) (g : Alert → Alert)
    (hg : ∀ r, (g r).uuid = r.uuid) :
    (l.map (fun r => if q r then g r else r)).map Alert.uuid = l.map Alert.uuid := by
  rw [List.map_map]
  apply List.map_congr_left
  intro r _
  by_cases h : q r = true <;> simp [h, hg]

theorem getAlert_spec (st : AlertStore) (u : String) (a : Alert)
    (h : getAlert st u = some a) : a ∈ st.rows ∧ a.uuid = u := by
  unfold getAlert at h
  exact ⟨List.mem_of_find?_eq_some h, by simpa using List.find?_some h⟩

/-- The total ACTIVE count is the sum of the per-severity ACTIVE counts. -/
theorem activeTotal_eq_sum (rows : List Alert) :
    (activeTotal rows : Int) =
      (activeCount rows .INFO : Int) + (activeCount rows .WARNING : Int) +
      (activeCount rows .ERROR : Int) + (activeCount rows .CRITICAL : Int) := by
  induction rows with
  | nil => simp [activeTotal, activeCount]
  | cons hd tl ih =>
    simp only [activeTotal, activeCount, List.countP_cons] at *
    cases hst : hd.status <;> cases hsev : hd.severity <;>
      simp [hst, hsev] <;> omega

/-! ## C2 — store operations preserve the ACTIVE-count invariant -/

/-- `create_alert` preserves the ACTIVE-count invariant and the uuid
Nodup. -/
theorem createAlert_preserves (fresh : String) (insertOk : Bool) (now : Nat)
    (a : Alert) (st : AlertStore)
    (hact : countersMatchActive st) (hnd : (st.rows.map Alert.uuid).Nodup) :
    countersMatchActive (createAlert fresh insertOk now a st).2 ∧
    ((createAlert fresh insertOk now a st).2.rows.map Alert.uuid).Nodup := by
  by_cases hc : (insertOk &&
      !(st.rows.any (fun r => r.uuid == (insertedRow fresh now a).uuid))) = true
  · have hnotin : (insertedRow fresh now a).uuid ∉ st.rows.map Alert.uuid := by
      intro hmem
      rcases List.mem_map.mp hmem with ⟨r, hr, hru⟩
      have hany : st.rows.any
          (fun r => r.uuid == (insertedRow fresh now a).uuid) = true :=
        List.any_eq_true.mpr ⟨r, hr, by simp [hru]⟩
      simp [hany] at hc
    have hnd' : ((st.rows ++ [insertedRow fresh now a]).map Alert.uuid).Nodup := by
      rw [List.map_append, List.nodup_append]
      refine ⟨hnd, by simp, ?_⟩
      intro b hb hb'
      simp only [List.map_cons, List.map_nil, List.mem_singleton] at hb'
      subst hb'
      exact hnotin hb
    obtain ⟨h1, h2, h3, h4, h5⟩ := hact
    have hsev : (insertedRow fresh now a).severity = a.severity := rfl
    have hstt : (insertedRow fresh now a).status = a.status := rfl
    by_cases hst : a.status = AlertStatus.ACTIVE
    · constructor
      · simp only [createAlert, hc, if_true, hstt, hst, if_pos rfl]
        refine ⟨?_, ?_, ?_, ?_, ?_⟩ <;>
          simp only [updateCounters_info, updateCounters_warning,
            updateCounters_error, updateCounters_critical, updateCounters_total,
            activeCount_append_single, activeTotal_append_single, hstt, hst, hsev,
            h1, h2, h3, h4, h5] <;>
          cases a.severity <;> simp <;> omega
      · simpa [createAlert, hc, hstt, hst] using hnd'
    · constructor
      · simp only [createAlert, hc, if_true, hstt, if_neg hst]
        refine ⟨?_, ?_, ?_, ?_, ?_⟩ <;>
          simp only [activeCount_append_single, activeTotal_append_single,
            hstt, hsev, h1, h2, h3, h4, h5] <;>
          simp [hst, beq_iff_eq]
      · simpa [createAlert, hc, hstt, hst] using hnd'
  · constructor
    · simpa [createAlert, hc] using hact
    · simpa [createAlert, hc] using hnd

/-- `acknowledge_alert` preserves the ACTIVE-count invariant and the uuid
Nodup. -/
theorem acknowledgeAlert_preserves (u : String) (now : Nat) (st : AlertStore)
    (hact : countersMatchActive st) (hnd : (st.rows.map Alert.uuid).Nodup) :
    countersMatchActive (acknowledgeAlert u now st).2 ∧
    ((acknowledgeAlert u now st).2.rows.map Alert.uuid).Nodup := by
  unfold acknowledgeAlert
  cases hga : getAlert st u with
  | none => exact ⟨hact, hnd⟩
  | some a =>
    obtain ⟨hmem, huuid⟩ := getAlert_spec st u a hga
    have hga' : st.rows.find? (fun r => r.uuid == u) = some a := hga
    by_cases hst : a.status = AlertStatus.ACTIVE
    · have hch : 0 < st.rows.countP (fun r => r.uuid == u) :=
        List.countP_pos_iff.mpr ⟨a, hmem, by simp [huuid]⟩
      simp only [if_pos hst, if_pos hch]
      have hndmap : ((st.rows.map (fun r =>
          if r.uuid == u then
            { r with status := AlertStatus.ACKNOWLEDGED, acknowledgedAt := some now }
          else r)).map Alert.uuid) = st.rows.map Alert.uuid :=
        map_ite_uuid st.rows _ _ (fun _ => rfl)
      refine ⟨?_, by rw [hndmap]; exact hnd⟩
      have key : ∀ sev : AlertSeverity,
          (activeCount (st.rows.map (fun r =>
            if r.uuid == u then
              { r with status := AlertStatus.ACKNOWLEDGED, acknowledgedAt := some now }
            else r)) sev : Int)
            = (activeCount st.rows sev : Int) - (if a.severity = sev then 1 else 0) := by
        intro sev
        have hcm := countP_map_update st.rows u
          (fun r => { r with status := AlertStatus.ACKNOWLEDGED, acknowledgedAt := some now })
          (fun r => r.status == AlertStatus.ACTIVE && r.severity == sev) hnd a hga'
        simp only [activeCount]
        rw [hcm]
        by_cases hsv : a.severity = sev <;> simp [hst, hsv]
      have keyT :
          (activeTotal (st.rows.map (fun r =>
            if r.uuid == u then
              { r with status := AlertStatus.ACKNOWLEDGED, acknowledgedAt := some now }
            else r)) : Int)
            = (activeTotal st.rows : Int) - 1 := by
        have hcm := countP_map_update st.rows u
          (fun r => { r with status := AlertStatus.ACKNOWLEDGED, acknowledgedAt := some now })
          (fun r => r.status == AlertStatus.ACTIVE) hnd a hga'
        simp only [activeTotal]
        rw [hcm]
        simp [hst]
      obtain ⟨h1, h2, h3, h4, h5⟩ := hact
      refine ⟨?_, ?_, ?_, ?_, ?_⟩
      · rw [updateCounters_info, h1, key]
        by_cases hsv : a.severity = .INFO <;> simp [hsv, sub_eq_add_neg]
      · rw [updateCounters_warning, h2, key]
        by_cases hsv : a.severity = .WARNING <;> simp [hsv, sub_eq_add_neg]
      · rw [updateCounters_error, h3, key]
        by_cases hsv : a.severity = .ERROR <;> simp [hsv, sub_eq_add_neg]
      · rw [updateCounters_critical, h4, key]
        by_cases hsv : a.severity = .CRITICAL <;> simp [hsv, sub_eq_add_neg]
      · rw [updateCounters_total, h5, keyT]
        ring
    · exact ⟨by simpa [hst] using hact, by simpa [hst] using hnd⟩

/-- `acknowledge_all` preserves the ACTIVE-count invariant and the uuid
Nodup: it turns every ACTIVE row into ACKNOWLEDGED and zeroes the counters
exactly when it changed something. -/
theorem acknowledgeAll_preserves (now : Nat) (st : AlertStore)
    (hact : countersMatchActive st) (hnd : (st.rows.map Alert.uuid).Nodup) :
    countersMatchActive (acknowledgeAll now st).2 ∧
    ((acknowledgeAll now st).2.rows.map Alert.uuid).Nodup := by
  unfold acknowledgeAll
  have hndmap : ((st.rows.map (fun r =>
      if r.status == AlertStatus.ACTIVE then
        { r with status := AlertStatus.ACKNOWLEDGED, acknowledgedAt := some now }
      else r)).map Alert.uuid) = st.rows.map Alert.uuid :=
    map_ite_uuid st.rows _ _ (fun _ => rfl)
  by_cases hch : 0 < st.rows.countP (fun r => r.status == AlertStatus.ACTIVE)
  · simp only [if_pos hch]
    refine ⟨?_, by rw [hndmap]; exact hnd⟩
    have hzero : ∀ x ∈ st.rows.map (fun r =>
        if r.status == AlertStatus.ACTIVE then
          { r with status := AlertStatus.ACKNOWLEDGED, acknowledgedAt := some now }
        else r), (x.status == AlertStatus.ACTIVE) = false := by
      intro x hx
      rcases List.mem_map.mp hx with ⟨r, _, rfl⟩
      by_cases h : (r.status == AlertStatus.ACTIVE) = true <;> simp [h]
    have hc0 : ∀ sev : AlertSeverity, activeCount (st.rows.map (fun r =>
        if r.status == AlertStatus.ACTIVE then
          { r with status := AlertStatus.ACKNOWLEDGED, acknowledgedAt := some now }
        else r)) sev = 0 := by
      intro sev
      apply List.countP_eq_zero.mpr
      intro x hx
      simp [hzero x hx]
    have ht0 : activeTotal (st.rows.map (fun r =>
        if r.status == AlertStatus.ACTIVE then
          { r with status := AlertStatus.ACKNOWLEDGED, acknowledgedAt := some now }
        else r)) = 0 := by
      apply List.countP_eq_zero.mpr
      intro x hx
      simp [hzero x hx]
    refine ⟨?_, ?_, ?_, ?_, ?_⟩
    · rw [hc0]; rfl
    · rw [hc0]; rfl
    · rw [hc0]; rfl
    · rw [hc0]; rfl
    · rw [ht0]; rfl
  · simp only [if_neg hch]
    have hnone : ∀ r ∈ st.rows, ¬ ((r.status == AlertStatus.ACTIVE) = true) :=
      List.countP_eq_zero.mp (Nat.le_zero.mp (Nat.not_lt.mp hch))
    have hrows : st.rows.map (fun r =>
        if r.status == AlertStatus.ACTIVE then
          { r with status := AlertStatus.ACKNOWLEDGED, acknowledgedAt := some now }
        else r) = st.rows := by
      rw [List.map_congr_left (fun r hr => if_neg (hnone r hr))]
      exact List.map_id st.rows
    rw [hrows]
    exact ⟨hact, hnd⟩

/-- `dismiss_alert` preserves the ACTIVE-count invariant and the uuid
Nodup. -/
theorem dismissAlert_preserves (u : String) (now : Nat) (st : AlertStore)
    (hact : countersMatchActive st) (hnd : (st.rows.map Alert.uuid).Nodup) :
    countersMatchActive (dismissAlert u now st).2 ∧
    ((dismissAlert u now st).2.rows.map Alert.uuid).Nodup := by
  unfold dismissAlert
  cases hga : getAlert st u with
  | none => exact ⟨hact, hnd⟩
  | some a =>
    obtain ⟨hmem, huuid⟩ := getAlert_spec st u a hga
    have hga' : st.rows.find? (fun r => r.uuid == u) = some a := hga
    have hch : 0 < st.rows.countP (fun r => r.uuid == u) :=
      List.countP_pos_iff.mpr ⟨a, hmem, by simp [huuid]⟩
    have hndmap : ((st.rows.map (fun r =>
        if r.uuid == u then
          { r with status := AlertStatus.DISMISSED, dismissedAt := some now }
        else r)).map Alert.uuid) = st.rows.map Alert.uuid :=
      map_ite_uuid st.rows _ _ (fun _ => rfl)
    have key : ∀ sev : AlertSeverity,
        (activeCount (st.rows.map (fun r =>
          if r.uuid == u then
            { r with status := AlertStatus.DISMISSED, dismissedAt := some now }
          else r)) sev : Int)
          = (activeCount st.rows sev : Int) -
            (if a.status = AlertStatus.ACTIVE ∧ a.severity = sev then 1 else 0) := by
      intro sev
      have hcm := countP_map_update st.rows u
        (fun r => { r with status := AlertStatus.DISMISSED, dismissedAt := some now })
        (fun r => r.status == AlertStatus.ACTIVE && r.severity == sev) hnd a hga'
      simp only [activeCount]
      rw [hcm]
      by_cases hst : a.status = AlertStatus.ACTIVE <;>
        by_cases hsv : a.severity = sev <;> simp [hst, hsv]
    have keyT :
        (activeTotal (st.rows.map (fun r =>
          if r.uuid == u then
            { r with status := AlertStatus.DISMISSED, dismissedAt := some now }
          else r)) : Int)
          = (activeTotal st.rows : Int) -
            (if a.status = AlertStatus.ACTIVE then 1 else 0) := by
      have hcm := countP_map_update st.rows u
        (fun r => { r with status := AlertStatus.DISMISSED, dismissedAt := some now })
        (fun r => r.status == AlertStatus.ACTIVE) hnd a hga'
      simp only [activeTotal]
      rw [hcm]
      by_cases hst : a.status = AlertStatus.ACTIVE <;> simp [hst]
    obtain ⟨h1, h2, h3, h4, h5⟩ := hact
    by_cases hst : a.status = AlertStatus.ACTIVE
    · simp only [if_pos hch, if_pos (show ((a.status = AlertStatus.ACTIVE ||
          a.status = AlertStatus.ACKNOWLEDGED) && a.status = AlertStatus.ACTIVE) = true
          by simp [hst])]
      constructor
      · refine ⟨?_, ?_, ?_, ?_, ?_⟩
        · rw [updateCounters_info, h1, key]
          by_cases hsv : a.severity = .INFO <;> simp [hsv, hst, sub_eq_add_neg]
        · rw [updateCounters_warning, h2, key]
          by_cases hsv : a.severity = .WARNING <;> simp [hsv, hst, sub_eq_add_neg]
        · rw [updateCounters_error, h3, key]
          by_cases hsv : a.severity = .ERROR <;> simp [hsv, hst, sub_eq_add_neg]
        · rw [updateCounters_critical, h4, key]
          by_cases hsv : a.severity = .CRITICAL <;> simp [hsv, hst, sub_eq_add_neg]
        · rw [updateCounters_total, h5, keyT]
          simp [hst, sub_eq_add_neg]
      · rw [hndmap]; exact hnd
    · simp only [if_pos hch, if_neg (show ¬ (((a.status = AlertStatus.ACTIVE ||
          a.status = AlertStatus.ACKNOWLEDGED) && a.status = AlertStatus.ACTIVE) = true)
          by simp [hst])]
      constructor
      · refine ⟨?_, ?_, ?_, ?_, ?_⟩
        · rw [h1, key]; simp [hst]
        · rw [h2, key]; simp [hst]
        · rw [h3, key]; simp [hst]
        · rw [h4, key]; simp [hst]
        · rw [h5, keyT]; simp [hst]
      · rw [hndmap]; exact hnd

/-- Every store operation preserves the ACTIVE-count invariant and the uuid
Nodup. -/
theorem applyStoreOps_preserves (ops : List StoreOp) (st : AlertStore)
    (hact : countersMatchActive st) (hnd : (st.rows.map Alert.uuid).Nodup) :
    countersMatchActive (applyStoreOps ops st) ∧
    ((applyStoreOps ops st).rows.map Alert.uuid).Nodup := by
  induction ops generalizing st with
  | nil => exact ⟨hact, hnd⟩
  | cons op ops ih =>
    have hstep : countersMatchActive (applyStoreOp op st) ∧
        ((applyStoreOp op st).rows.map Alert.uuid).Nodup := by
      cases op with
      | create a fresh insertOk now => exact createAlert_preserves fresh insertOk now a st hact hnd
      | acknowledge u now => exact acknowledgeAlert_preserves u now st hact hnd
      | ackAll now => exact acknowledgeAll_preserves now st hact hnd
      | dismiss u now => exact dismissAlert_preserves u now st hact hnd
    exact ih (applyStoreOp op st) hstep.1 hstep.2

/-- `initialize` on a database with no ACKNOWLEDGED rows establishes the
ACTIVE-count invariant. -/
theorem initManager_establishes (rows0 : List Alert)
    (hnoAck : ∀ a ∈ rows0, a.status ≠ AlertStatus.ACKNOWLEDGED) :
    countersMatchActive (initManager rows0) := by
  have hcnt : ∀ sev, nonDismissedCount rows0 sev = activeCount rows0 sev := by
    intro sev
    unfold nonDismissedCount activeCount
    apply List.countP_congr
    intro r hr
    cases hst : r.status
    · simp [hst]
    · exact absurd hst (hnoAck r hr)
    · simp [hst]
  unfold initManager loadInitialCounters countersMatchActive
  simp only [AlertCounters.zero]
  refine ⟨?_, ?_, ?_, ?_, ?_⟩
  · rw [hcnt]; split <;> omega
  · rw [hcnt]; split <;> omega
  · rw [hcnt]; split <;> omega
  · rw [hcnt]; split <;> omega
  · rw [hcnt, hcnt, hcnt, hcnt]
    exact (activeTotal_eq_sum rows0).symm

/-! ## Threshold-engine lemmas (C1 and C9) -/

theorem mem_eraseKey (l : List String) (k k' : String) :
    k ∈ eraseKey l k' ↔ k ∈ l ∧ k ≠ k' := by
  simp [eraseKey, List.mem_filter]

theorem not_mem_eraseKey_of (l : List String) (k k' : String) (h : k ∉ l) :
    k ∉ eraseKey l k' :=
  fun hx => h ((mem_eraseKey l k k').mp hx).1

theorem eraseKey_cons_self (l : List String) (k : String) (h : k ∉ l) :
    eraseKey (k :: l) k = l := by
  unfold eraseKey
  rw [List.filter_cons]
  simp only [beq_self_eq_true, Bool.not_true, if_false]
  apply List.filter_eq_self.mpr
  intro a ha
  simp only [Bool.not_eq_true']
  exact beq_eq_false_iff_ne.mpr (fun hx => h (hx ▸ ha))

/-- Case analysis on `create_alert`: either the insert fails (primary-key
collision or driver error) and the store is untouched with `none` returned,
or it succeeds and exactly the inserted row is appended. -/
theorem createAlert_spec (fresh : String) (insertOk : Bool) (now : Nat)
    (a : Alert) (st : AlertStore) :
    ((createAlert fresh insertOk now a st).1 = none ∧
      (createAlert fresh insertOk now a st).2 = st) ∨
    ((createAlert fresh insertOk now a st).1 = some (insertedRow fresh now a) ∧
      (createAlert fresh insertOk now a st).2.rows =
        st.rows ++ [insertedRow fresh now a]) := by
  unfold createAlert
  by_cases hc : (insertOk &&
      !(st.rows.any (fun r => r.uuid == (insertedRow fresh now a).uuid))) = true
  · right
    by_cases hst : (insertedRow fresh now a).status = AlertStatus.ACTIVE <;>
      simp [hc, hst]
  · left
    simp [hc]

theorem createBasicAlert_skip (sev : AlertSeverity) (cat : AlertCategory)
    (src msg desc : String) (fresh : String → String) (ok : String → Bool)
    (now : Nat) (s : MonitorState)
    (hk : alertKeyOf cat sev src msg ∈ s.activeAlertKeys) :
    createBasicAlert sev cat src msg desc fresh ok now s = s := by
  simp [createBasicAlert, hk]

/-- Case analysis on `create_basic_alert`: either the state is unchanged
(key already firing, or the store insert failed and the key was rolled
back), or the key was absent, is now firing, and exactly one ACTIVE row with
this key's fields was appended. -/
theorem createBasicAlert_spec (sev : AlertSeverity) (cat : AlertCategory)
    (src msg desc : String) (fresh : String → String) (ok : String → Bool)
    (now : Nat) (s : MonitorState) :
    createBasicAlert sev cat src msg desc fresh ok now s = s ∨
    (alertKeyOf cat sev src msg ∉ s.activeAlertKeys ∧
      (createBasicAlert sev cat src msg desc fresh ok now s).activeAlertKeys =
        alertKeyOf cat sev src msg :: s.activeAlertKeys ∧
      (createBasicAlert sev cat src msg desc fresh ok now s).store.rows =
        s.store.rows ++ [insertedRow (fresh (alertKeyOf cat sev src msg)) now
          (basicAlert sev cat src msg desc now)]) := by
  by_cases hk : alertKeyOf cat sev src msg ∈ s.activeAlertKeys
  · left
    exact createBasicAlert_skip sev cat src msg desc fresh ok now s hk
  · rcases createAlert_spec (fresh (alertKeyOf cat sev src msg))
        (ok (alertKeyOf cat sev src msg)) now
        (basicAlert sev cat src msg desc now) s.store with ⟨h1, h2⟩ | ⟨h1, h2⟩
    · left
      unfold createBasicAlert
      simp only [if_neg hk]
      rcases hp : createAlert (fresh (alertKeyOf cat sev src msg))
          (ok (alertKeyOf cat sev src msg)) now
          (basicAlert sev cat src msg desc now) s.store with ⟨opt, store1⟩
      rw [hp] at h1 h2
      simp only at h1 h2
      subst h1
      simp only
      rw [eraseKey_cons_self _ _ hk, h2]
    · right
      refine ⟨hk, ?_, ?_⟩ <;>
      · unfold createBasicAlert
        simp only [if_neg hk]
        rcases hp : createAlert (fresh (alertKeyOf cat sev src msg))
            (ok (alertKeyOf cat sev src msg)) now
            (basicAlert sev cat src msg desc now) s.store with ⟨opt, store1⟩
        rw [hp] at h1 h2
        simp only at h1 h2
        subst h1
        simpa using h2

theorem rowKey_insertedRow (f : String) (n : Nat) (sev : AlertSeverity)
    (cat : AlertCategory) (src msg desc : String) (nw : Nat) :
    rowKey (insertedRow f n (basicAlert sev cat src msg desc nw)) =
      alertKeyOf cat sev src msg := rfl

theorem createBasicAlert_keys_mem {sev : AlertSeverity} {cat : AlertCategory}
    {src msg desc : String} {fresh : String → String} {ok : String → Bool}
    {now : Nat} {s : MonitorState} {k : String} (hk : k ∈ s.activeAlertKeys) :
    k ∈ (createBasicAlert sev cat src msg desc fresh ok now s).activeAlertKeys := by
  rcases createBasicAlert_spec sev cat src msg desc fresh ok now s with h | ⟨-, h2, -⟩
  · rw [h]; exact hk
  · rw [h2]; exact List.mem_cons_of_mem _ hk

theorem createBasicAlert_keys_not_mem {sev : AlertSeverity} {cat : AlertCategory}
    {src msg desc : String} {fresh : String → String} {ok : String → Bool}
    {now : Nat} {s : MonitorState} {k : String} (hk : k ∉ s.activeAlertKeys)
    (hne : k ≠ alertKeyOf cat sev src msg) :
    k ∉ (createBasicAlert sev cat src msg desc fresh ok now s).activeAlertKeys := by
  rcases createBasicAlert_spec sev cat src msg desc fresh ok now s with h | ⟨-, h2, -⟩
  · rw [h]; exact hk
  · rw [h2]
    intro hx
    rcases List.mem_cons.mp hx with hx | hx
    · exact hne hx
    · exact hk hx

theorem createBasicAlert_countKey_ne {sev : AlertSeverity} {cat : AlertCategory}
    {src msg desc : String} {fresh : String → String} {ok : String → Bool}
    {now : Nat} {s : MonitorState} {k : String}
    (hne : k ≠ alertKeyOf cat sev src msg) :
    countActiveKeyRows (createBasicAlert sev cat src msg desc fresh ok now s).store.rows k
      = countActiveKeyRows s.store.rows k := by
  rcases createBasicAlert_spec sev cat src msg desc fresh ok now s with h | ⟨-, -, h3⟩
  · rw [h]
  · rw [h3]
    unfold countActiveKeyRows
    rw [List.countP_append]
    have hx : (rowKey (insertedRow (fresh (alertKeyOf cat sev src msg)) now
        (basicAlert sev cat src msg desc now)) == k) = false := by
      rw [rowKey_insertedRow]
      exact beq_eq_false_iff_ne.mpr (Ne.symm hne)
    simp [List.countP_cons, hx]

theorem createBasicAlert_countKey_mem {sev : AlertSeverity} {cat : AlertCategory}
    {src msg desc : String} {fresh : String → String} {ok : String → Bool}
    {now : Nat} {s : MonitorState} {k : String} (hk : k ∈ s.activeAlertKeys) :
    countActiveKeyRows (createBasicAlert sev cat src msg desc fresh ok now s).store.rows k
      = countActiveKeyRows s.store.rows k := by
  by_cases hkk : k = alertKeyOf cat sev src msg
  · subst hkk
    rw [createBasicAlert_skip sev cat src msg desc fresh ok now s hk]
  · exact createBasicAlert_countKey_ne hkk

theorem createBasicAlert_countKey_le {sev : AlertSeverity} {cat : AlertCategory}
    {src msg desc : String} {fresh : String → String} {ok : String → Bool}
    {now : Nat} {s : MonitorState} {k : String} :
    countActiveKeyRows (createBasicAlert sev cat src msg desc fresh ok now s).store.rows k
      ≤ countActiveKeyRows s.store.rows k + 1 := by
  rcases createBasicAlert_spec sev cat src msg desc fresh ok now s with h | ⟨-, -, h3⟩
  · rw [h]; omega
  · rw [h3]
    unfold countActiveKeyRows
    rw [List.countP_append]
    have : List.countP (fun r => rowKey r == k && r.status == AlertStatus.ACTIVE)
        [insertedRow (fresh (alertKeyOf cat sev src msg)) now
          (basicAlert sev cat src msg desc now)] ≤ 1 := by
      simp [List.countP_cons]
      split <;> omega
    omega

theorem createBasicAlert_countCat_ne {sev : AlertSeverity} {cat : AlertCategory}
    {src msg desc : String} {fresh : String → String} {ok : String → Bool}
    {now : Nat} {s : MonitorState} {c : AlertCategory} (hne : c ≠ cat) :
    countCatActive (createBasicAlert sev cat src msg desc fresh ok now s).store.rows c
      = countCatActive s.store.rows c := by
  rcases createBasicAlert_spec sev cat src msg desc fresh ok now s with h | ⟨-, -, h3⟩
  · rw [h]
  · rw [h3]
    unfold countCatActive
    rw [List.countP_append]
    have hx : ((insertedRow (fresh (alertKeyOf cat sev src msg)) now
        (basicAlert sev cat src msg desc now)).category == c) = false := by
      exact beq_eq_false_iff_ne.mpr (Ne.symm hne)
    simp [List.countP_cons, hx]

theorem bandBlock_keys_mem {cat : AlertCategory} {metric warnT critT : ℚ}
    {critMsg warnMsg critDesc warnDesc : String} {fresh : String → String}
    {ok : String → Bool} {now : Nat} {s : MonitorState} {k : String}
    (hk : k ∈ s.activeAlertKeys)
    (hwne : k ≠ alertKeyOf cat .WARNING "system_monitor" warnMsg)
    (hcne : k ≠ alertKeyOf cat .CRITICAL "system_monitor" critMsg) :
    k ∈ (bandBlock cat metric warnT critT critMsg warnMsg critDesc warnDesc
      fresh ok now s).activeAlertKeys := by
  unfold bandBlock
  split_ifs with h1 h2
  · exact createBasicAlert_keys_mem hk
  · exact (mem_eraseKey _ _ _).mpr ⟨createBasicAlert_keys_mem hk, hcne⟩
  · exact (mem_eraseKey _ _ _).mpr ⟨(mem_eraseKey _ _ _).mpr ⟨hk, hcne⟩, hwne⟩

theorem bandBlock_keys_not_mem {cat : AlertCategory} {metric warnT critT : ℚ}
    {critMsg warnMsg critDesc warnDesc : String} {fresh : String → String}
    {ok : String → Bool} {now : Nat} {s : MonitorState} {k : String}
    (hk : k ∉ s.activeAlertKeys)
    (hwne : k ≠ alertKeyOf cat .WARNING "system_monitor" warnMsg)
    (hcne : k ≠ alertKeyOf cat .CRITICAL "system_monitor" critMsg) :
    k ∉ (bandBlock cat metric warnT critT critMsg warnMsg critDesc warnDesc
      fresh ok now s).activeAlertKeys := by
  unfold bandBlock
  split_ifs with h1 h2
  · exact createBasicAlert_keys_not_mem hk hcne
  · exact not_mem_eraseKey_of _ _ _ (createBasicAlert_keys_not_mem hk hwne)
  · exact not_mem_eraseKey_of _ _ _ (not_mem_eraseKey_of _ _ _ hk)

theorem bandBlock_countKey_mem {cat : AlertCategory} {metric warnT critT : ℚ}
    {critMsg warnMsg critDesc warnDesc : String} {fresh : String → String}
    {ok : String → Bool} {now : Nat} {s : MonitorState} {k : String}
    (hk : k ∈ s.activeAlertKeys) :
    countActiveKeyRows (bandBlock cat metric warnT critT critMsg warnMsg
      critDesc warnDesc fresh ok now s).store.rows k
      = countActiveKeyRows s.store.rows k := by
  unfold bandBlock
  split_ifs with h1 h2
  · exact createBasicAlert_countKey_mem hk
  · exact createBasicAlert_countKey_mem hk
  · rfl

theorem bandBlock_countKey_ne {cat : AlertCategory} {metric warnT critT : ℚ}
    {critMsg warnMsg critDesc warnDesc : String} {fresh : String → String}
    {ok : String → Bool} {now : Nat} {s : MonitorState} {k : String}
    (hwne : k ≠ alertKeyOf cat .WARNING "system_monitor" warnMsg)
    (hcne : k ≠ alertKeyOf cat .CRITICAL "system_monitor" critMsg) :
    countActiveKeyRows (bandBlock cat metric warnT critT critMsg warnMsg
      critDesc warnDesc fresh ok now s).store.rows k
      = countActiveKeyRows s.store.rows k := by
  unfold bandBlock
  split_ifs with h1 h2
  · exact createBasicAlert_countKey_ne hcne
  · exact createBasicAlert_countKey_ne hwne
  · rfl

theorem bandBlock_countKey_le {cat : AlertCategory} {metric warnT critT : ℚ}
    {critMsg warnMsg critDesc warnDesc : String} {fresh : String → String}
    {ok : String → Bool} {now : Nat} {s : MonitorState} {k : String} :
    countActiveKeyRows (bandBlock cat metric warnT critT critMsg warnMsg
      critDesc warnDesc fresh ok now s).store.rows k
      ≤ countActiveKeyRows s.store.rows k + 1 := by
  unfold bandBlock
  split_ifs with h1 h2
  · exact createBasicAlert_countKey_le
  · exact createBasicAlert_countKey_le
  · exact Nat.le_succ _

theorem bandBlock_countCat_ne {cat : AlertCategory} {metric warnT critT : ℚ}
    {critMsg warnMsg critDesc warnDesc : String} {fresh : String → String}
    {ok : String → Bool} {now : Nat} {s : MonitorState} {c : AlertCategory}
    (hne : c ≠ cat) :
    countCatActive (bandBlock cat metric warnT critT critMsg warnMsg
      critDesc warnDesc fresh ok now s).store.rows c
      = countCatActive s.store.rows c := by
  unfold bandBlock
  split_ifs with h1 h2
  · exact createBasicAlert_countCat_ne hne
  · exact createBasicAlert_countCat_ne hne
  · rfl

/-- In the `none` band the block only erases its two keys; the store is
untouched. -/
theorem bandBlock_none {cat : AlertCategory} {metric warnT critT : ℚ}
    {critMsg warnMsg critDesc warnDesc : String} {fresh : String → String}
    {ok : String → Bool} {now : Nat} {s : MonitorState}
    (h1 : ¬ critT ≤ metric) (h2 : ¬ warnT ≤ metric) :
    bandBlock cat metric warnT critT critMsg warnMsg critDesc warnDesc
        fresh ok now s =
      ⟨eraseKey (eraseKey s.activeAlertKeys
          (alertKeyOf cat .CRITICAL "system_monitor" critMsg))
          (alertKeyOf cat .WARNING "system_monitor" warnMsg), s.store⟩ := by
  unfold bandBlock
  simp [h1, h2]

theorem serviceBlock_keys_mem {failed : Int} {fresh : String → String}
    {ok : String → Bool} {now : Nat} {s : MonitorState} {k : String}
    (hk : k ∈ s.activeAlertKeys)
    (hsne : k ≠ alertKeyOf .SERVICE .ERROR "system_monitor"
      "Failed systemd services detected") :
    k ∈ (serviceBlock failed fresh ok now s).activeAlertKeys := by
  unfold serviceBlock
  split_ifs with h1
  · exact createBasicAlert_keys_mem hk
  · exact (mem_eraseKey _ _ _).mpr ⟨hk, hsne⟩

theorem serviceBlock_keys_not_mem {failed : Int} {fresh : String → String}
    {ok : String → Bool} {now : Nat} {s : MonitorState} {k : String}
    (hk : k ∉ s.activeAlertKeys)
    (hsne : k ≠ alertKeyOf .SERVICE .ERROR "system_monitor"
      "Failed systemd services detected") :
    k ∉ (serviceBlock failed fresh ok now s).activeAlertKeys := by
  unfold serviceBlock
  split_ifs with h1
  · exact createBasicAlert_keys_not_mem hk hsne
  · exact not_mem_eraseKey_of _ _ _ hk

theorem serviceBlock_countKey_mem {failed : Int} {fresh : String → String}
    {ok : String → Bool} {now : Nat} {s : MonitorState} {k : String}
    (hk : k ∈ s.activeAlertKeys) :
    countActiveKeyRows (serviceBlock failed fresh ok now s).store.rows k
      = countActiveKeyRows s.store.rows k := by
  unfold serviceBlock
  split_ifs with h1
  · exact createBasicAlert_countKey_mem hk
  · rfl

theorem serviceBlock_countKey_ne {failed : Int} {fresh : String → String}
    {ok : String → Bool} {now : Nat} {s : MonitorState} {k : String}
    (hsne : k ≠ alertKeyOf .SERVICE .ERROR "system_monitor"
      "Failed systemd services detected") :
    countActiveKeyRows (serviceBlock failed fresh ok now s).store.rows k
      = countActiveKeyRows s.store.rows k := by
  unfold serviceBlock
  split_ifs with h1
  · exact createBasicAlert_countKey_ne hsne
  · rfl

theorem serviceBlock_countKey_le {failed : Int} {fresh : String → String}
    {ok : String → Bool} {now : Nat} {s : MonitorState} {k : String} :
    countActiveKeyRows (serviceBlock failed fresh ok now s).store.rows k
      ≤ countActiveKeyRows s.store.rows k + 1 := by
  unfold serviceBlock
  split_ifs with h1
  · exact createBasicAlert_countKey_le
  · exact Nat.le_succ _

theorem serviceBlock_countCat_ne {failed : Int} {fresh : String → String}
    {ok : String → Bool} {now : Nat} {s : MonitorState} {c : AlertCategory}
    (hne : c ≠ .SERVICE) :
    countCatActive (serviceBlock failed fresh ok now s).store.rows c
      = countCatActive s.store.rows c := by
  unfold serviceBlock
  split_ifs with h1
  · exact createBasicAlert_countCat_ne hne
  · rfl

/-- While a key is in the firing set, one tick of `check_thresholds` creates
no new ACTIVE row with that key. -/
theorem checkThresholds_countKey_mem (t : MonitoringThresholds) (i : TickInput)
    (s : MonitorState) (k : String) (hk : k ∈ s.activeAlertKeys) :
    countActiveKeyRows (checkThresholds t i s).store.rows k
      = countActiveKeyRows s.store.rows k := by
  unfold checkThresholds
  by_cases h1 : k = alertKeyOf .CPU .WARNING "system_monitor" "CPU usage high"
  · subst h1
    exact (serviceBlock_countKey_ne (by decide)).trans
      ((bandBlock_countKey_ne (by decide) (by decide)).trans
        ((bandBlock_countKey_ne (by decide) (by decide)).trans
          (bandBlock_countKey_mem hk)))
  by_cases h2 : k = alertKeyOf .CPU .CRITICAL "system_monitor" "CPU usage critical"
  · subst h2
    exact (serviceBlock_countKey_ne (by decide)).trans
      ((bandBlock_countKey_ne (by decide) (by decide)).trans
        ((bandBlock_countKey_ne (by decide) (by decide)).trans
          (bandBlock_countKey_mem hk)))
  by_cases h3 : k = alertKeyOf .MEMORY .WARNING "system_monitor" "Memory usage high"
  · subst h3
    exact (serviceBlock_countKey_ne (by decide)).trans
      ((bandBlock_countKey_ne (by decide) (by decide)).trans
        ((bandBlock_countKey_mem
            (bandBlock_keys_mem hk (by decide) (by decide))).trans
          (bandBlock_countKey_ne (by decide) (by decide))))
  by_cases h4 : k = alertKeyOf .MEMORY .CRITICAL "system_monitor" "Memory usage critical"
  · subst h4
    exact (serviceBlock_countKey_ne (by decide)).trans
      ((bandBlock_countKey_ne (by decide) (by decide)).trans
        ((bandBlock_countKey_mem
            (bandBlock_keys_mem hk (by decide) (by decide))).trans
          (bandBlock_countKey_ne (by decide) (by decide))))
  by_cases h5 : k = alertKeyOf .DISK .WARNING "system_monitor" "Disk usage high"
  · subst h5
    exact (serviceBlock_countKey_ne (by decide)).trans
      ((bandBlock_countKey_mem
          (bandBlock_keys_mem
            (bandBlock_keys_mem hk (by decide) (by decide))
            (by decide) (by decide))).trans
        ((bandBlock_countKey_ne (by decide) (by decide)).trans
          (bandBlock_countKey_ne (by decide) (by decide))))
  by_cases h6 : k = alertKeyOf .DISK .CRITICAL "system_monitor" "Disk usage critical"
  · subst h6
    exact (serviceBlock_countKey_ne (by decide)).trans
      ((bandBlock_countKey_mem
          (bandBlock_keys_mem
            (bandBlock_keys_mem hk (by decide) (by decide))
            (by decide) (by decide))).trans
        ((bandBlock_countKey_ne (by decide) (by decide)).trans
          (bandBlock_countKey_ne (by decide) (by decide))))
  by_cases h7 : k = alertKeyOf .SERVICE .ERROR "system_monitor"
    "Failed systemd services detected"
  · subst h7
    exact (serviceBlock_countKey_mem
        (bandBlock_keys_mem
          (bandBlock_keys_mem
            (bandBlock_keys_mem hk (by decide) (by decide))
            (by decide) (by decide))
          (by decide) (by decide))).trans
      ((bandBlock_countKey_ne (by decide) (by decide)).trans
        ((bandBlock_countKey_ne (by decide) (by decide)).trans
          (bandBlock_countKey_ne (by decide) (by decide))))
  · exact (serviceBlock_countKey_ne h7).trans
      ((bandBlock_countKey_ne h5 h6).trans
        ((bandBlock_countKey_ne h3 h4).trans
          (bandBlock_countKey_ne h1 h2)))

/-- One tick of `check_thresholds` creates at most one ACTIVE row with any
given key. -/
theorem checkThresholds_countKey_le (t : MonitoringThresholds) (i : TickInput)
    (s : MonitorState) (k : String) :
    countActiveKeyRows (checkThresholds t i s).store.rows k
      ≤ countActiveKeyRows s.store.rows k + 1 := by
  unfold checkThresholds
  by_cases h1 : k = alertKeyOf .CPU .WARNING "system_monitor" "CPU usage high"
  · subst h1
    exact le_trans (le_of_eq ((serviceBlock_countKey_ne (by decide)).trans
      ((bandBlock_countKey_ne (by decide) (by decide)).trans
        (bandBlock_countKey_ne (by decide) (by decide)))))
      bandBlock_countKey_le
  by_cases h2 : k = alertKeyOf .CPU .CRITICAL "system_monitor" "CPU usage critical"
  · subst h2
    exact le_trans (le_of_eq ((serviceBlock_countKey_ne (by decide)).trans
      ((bandBlock_countKey_ne (by decide) (by decide)).trans
        (bandBlock_countKey_ne (by decide) (by decide)))))
      bandBlock_countKey_le
  by_cases h3 : k = alertKeyOf .MEMORY .WARNING "system_monitor" "Memory usage high"
  · subst h3
    refine le_trans (le_of_eq ((serviceBlock_countKey_ne (by decide)).trans
      (bandBlock_countKey_ne (by decide) (by decide))))
      (le_trans bandBlock_countKey_le ?_)
    rw [bandBlock_countKey_ne (by decide) (by decide)]
  by_cases h4 : k = alertKeyOf .MEMORY .CRITICAL "system_monitor" "Memory usage critical"
  · subst h4
    refine le_trans (le_of_eq ((serviceBlock_countKey_ne (by decide)).trans
      (bandBlock_countKey_ne (by decide) (by decide))))
      (le_trans bandBlock_countKey_le ?_)
    rw [bandBlock_countKey_ne (by decide) (by decide)]
  by_cases h5 : k = alertKeyOf .DISK .WARNING "system_monitor" "Disk usage high"
  · subst h5
    refine le_trans (le_of_eq (serviceBlock_countKey_ne (by decide)))
      (le_trans bandBlock_countKey_le ?_)
    rw [bandBlock_countKey_ne (by decide) (by decide),
      bandBlock_countKey_ne (by decide) (by decide)]
  by_cases h6 : k = alertKeyOf .DISK .CRITICAL "system_monitor" "Disk usage critical"
  · subst h6
    refine le_trans (le_of_eq (serviceBlock_countKey_ne (by decide)))
      (le_trans bandBlock_countKey_le ?_)
    rw [bandBlock_countKey_ne (by decide) (by decide),
      bandBlock_countKey_ne (by decide) (by decide)]
  by_cases h7 : k = alertKeyOf .SERVICE .ERROR "system_monitor"
    "Failed systemd services detected"
  · subst h7
    refine le_trans serviceBlock_countKey_le ?_
    rw [bandBlock_countKey_ne (by decide) (by decide),
      bandBlock_countKey_ne (by decide) (by decide),
      bandBlock_countKey_ne (by decide) (by decide)]
  · rw [serviceBlock_countKey_ne h7, bandBlock_countKey_ne h5 h6,
      bandBlock_countKey_ne h3 h4, bandBlock_countKey_ne h1 h2]
    exact Nat.le_succ _

/-- If a key is in the firing set at every state a tick sequence visits, the
sequence creates no new ACTIVE row with that key. -/
theorem processTicks_countKey_mem (t : MonitoringThresholds) (is : List TickInput)
    (s : MonitorState) (k : String)
    (hall : ∀ st ∈ tickStates t is s, k ∈ st.activeAlertKeys) :
    countActiveKeyRows (processTicks t is s).store.rows k
      = countActiveKeyRows s.store.rows k := by
  induction is generalizing s with
  | nil => rfl
  | cons i rest ih =>
    have hmem : k ∈ s.activeAlertKeys := hall s (List.mem_cons_self _ _)
    have htail : ∀ st ∈ tickStates t rest (checkThresholds t i s),
        k ∈ st.activeAlertKeys := fun st hst => hall st (List.mem_cons_of_mem _ hst)
    exact (ih (checkThresholds t i s) htail).trans
      (checkThresholds_countKey_mem t i s k hmem)

/-- After a tick in the `none` band for a metric category, neither of the
category's two keys is in the firing set. -/
theorem checkThresholds_none_keys (t : MonitoringThresholds) (c : AlertCategory)
    (hc : c = .CPU ∨ c = .MEMORY ∨ c = .DISK) (i : TickInput) (s : MonitorState)
    (hnone : noneBandFor c t i.health) :
    warnKeyOfCat c ∉ (checkThresholds t i s).activeAlertKeys ∧
    critKeyOfCat c ∉ (checkThresholds t i s).activeAlertKeys := by
  have not_self : ∀ (l : List String) (k : String), k ∉ eraseKey l k :=
    fun l k hx => ((mem_eraseKey l k k).mp hx).2 rfl
  unfold checkThresholds
  rcases hc with rfl | rfl | rfl
  · have h1 : ¬ t.cpuCritical ≤ i.health.cpuUsagePercent := hnone.1
    have h2 : ¬ t.cpuWarning ≤ i.health.cpuUsagePercent := hnone.2
    constructor
    · exact serviceBlock_keys_not_mem
        (bandBlock_keys_not_mem
          (bandBlock_keys_not_mem
            (by rw [bandBlock_none h1 h2]; exact not_self _ _)
            (by decide) (by decide))
          (by decide) (by decide))
        (by decide)
    · exact serviceBlock_keys_not_mem
        (bandBlock_keys_not_mem
          (bandBlock_keys_not_mem
            (by rw [bandBlock_none h1 h2]
                exact not_mem_eraseKey_of _ _ _ (not_self _ _))
            (by decide) (by decide))
          (by decide) (by decide))
        (by decide)
  · have h1 : ¬ t.memoryCritical ≤ i.health.memoryUsagePercent := hnone.1
    have h2 : ¬ t.memoryWarning ≤ i.health.memoryUsagePercent := hnone.2
    constructor
    · exact serviceBlock_keys_not_mem
        (bandBlock_keys_not_mem
          (by rw [bandBlock_none h1 h2]; exact not_self _ _)
          (by decide) (by decide))
        (by decide)
    · exact serviceBlock_keys_not_mem
        (bandBlock_keys_not_mem
          (by rw [bandBlock_none h1 h2]
              exact not_mem_eraseKey_of _ _ _ (not_self _ _))
          (by decide) (by decide))
        (by decide)
  · have h1 : ¬ t.diskCritical ≤ i.health.diskUsagePercent := hnone.1
    have h2 : ¬ t.diskWarning ≤ i.health.diskUsagePercent := hnone.2
    constructor
    · exact serviceBlock_keys_not_mem
        (by rw [bandBlock_none h1 h2]; exact not_self _ _)
        (by decide)
    · exact serviceBlock_keys_not_mem
        (by rw [bandBlock_none h1 h2]
            exact not_mem_eraseKey_of _ _ _ (not_self _ _))
        (by decide)

/-- In the `none` band a block leaves the store untouched, so the per-category
ACTIVE count is unchanged. -/
theorem bandBlock_countCat_none {cat : AlertCategory} {metric warnT critT : ℚ}
    {critMsg warnMsg critDesc warnDesc : String} {fresh : String → String}
    {ok : String → Bool} {now : Nat} {s : MonitorState} {c : AlertCategory}
    (h1 : ¬ critT ≤ metric) (h2 : ¬ warnT ≤ metric) :
    countCatActive (bandBlock cat metric warnT critT critMsg warnMsg
      critDesc warnDesc fresh ok now s).store.rows c
      = countCatActive s.store.rows c := by
  rw [bandBlock_none h1 h2]

/-- A tick in the `none` band for a metric category creates no ACTIVE row of
that category. -/
theorem checkThresholds_countCat_none (t : MonitoringThresholds) (c : AlertCategory)
    (hc : c = .CPU ∨ c = .MEMORY ∨ c = .DISK) (i : TickInput) (s : MonitorState)
    (hnone : noneBandFor c t i.health) :
    countCatActive (checkThresholds t i s).store.rows c
      = countCatActive s.store.rows c := by
  unfold checkThresholds
  rcases hc with rfl | rfl | rfl
  · exact (serviceBlock_countCat_ne (by decide)).trans
      ((bandBlock_countCat_ne (by decide)).trans
        ((bandBlock_countCat_ne (by decide)).trans
          (bandBlock_countCat_none hnone.1 hnone.2)))
  · exact (serviceBlock_countCat_ne (by decide)).trans
      ((bandBlock_countCat_ne (by decide)).trans
        ((bandBlock_countCat_none hnone.1 hnone.2).trans
          (bandBlock_countCat_ne (by decide))))
  · exact (serviceBlock_countCat_ne (by decide)).trans
      ((bandBlock_countCat_none hnone.1 hnone.2).trans
        ((bandBlock_countCat_ne (by decide)).trans
          (bandBlock_countCat_ne (by decide))))

/-- Over a sequence of ticks all in the `none` band for a metric category,
every visited state has the same per-category ACTIVE count as the start. -/
theorem tickStates_countCat_none (t : MonitoringThresholds) (c : AlertCategory)
    (hc : c = .CPU ∨ c = .MEMORY ∨ c = .DISK) (is : List TickInput)
    (s : MonitorState) (hall : ∀ j ∈ is, noneBandFor c t j.health) :
    ∀ st ∈ tickStates t is s,
      countCatActive st.store.rows c = countCatActive s.store.rows c := by
  induction is generalizing s with
  | nil =>
    intro st hst
    rcases List.mem_cons.mp hst with rfl | h
    · rfl
    · exact absurd h (List.not_mem_nil st)
  | cons i rest ih =>
    intro st hst
    rcases List.mem_cons.mp hst with rfl | h
    · rfl
    · have h1 : countCatActive (checkThresholds t i s).store.rows c
          = countCatActive s.store.rows c :=
        checkThresholds_countCat_none t c hc i s (hall i (List.mem_cons_self _ _))
      exact (ih (checkThresholds t i s)
        (fun j hj => hall j (List.mem_cons_of_mem _ hj)) st h).trans h1

/-- Over a sequence of ticks all in the `none` band for a metric category,
the final per-category ACTIVE count equals the starting one. -/
theorem processTicks_countCat_none (t : MonitoringThresholds) (c : AlertCategory)
    (hc : c = .CPU ∨ c = .MEMORY ∨ c = .DISK) (is : List TickInput)
    (s : MonitorState) (hall : ∀ j ∈ is, noneBandFor c t j.health) :
    countCatActive (processTicks t is s).store.rows c
      = countCatActive s.store.rows c := by
  induction is generalizing s with
  | nil => rfl
  | cons i rest ih =>
    have h1 : countCatActive (checkThresholds t i s).store.rows c
        = countCatActive s.store.rows c :=
      checkThresholds_countCat_none t c hc i s (hall i (List.mem_cons_self _ _))
    exact (ih (checkThresholds t i s)
      (fun j hj => hall j (List.mem_cons_of_mem _ hj))).trans h1

/-- C1 (counterexample): a warn / recovery / warn disk sequence creates two
ACTIVE rows with the disk-warning key, because recovery erases the firing key
but leaves the first row ACTIVE in the store.  This refutes the claim that at
most one ACTIVE alert with a given key is created over any snapshot
sequence. -/
theorem claim_C1_counterexample :
    ¬ countActiveKeyRows (processTicks monThresholds warnNoneWarnTicks
        emptyMon).store.rows (warnKeyOfCat .DISK) ≤ 1 := by
  decide

/-- C1 (amended): the deduplication is per firing episode.  If the key stays
in the firing set after every tick of the sequence, then at most one new
ACTIVE row with that key is created: the key is inserted before `create_alert`
runs, a present key skips creation, and a failed creation removes the key. -/
theorem claim_C1_amended (t : MonitoringThresholds) (is : List TickInput)
    (s : MonitorState) (k : String)
    (hall : ∀ st ∈ (tickStates t is s).drop 1, k ∈ st.activeAlertKeys) :
    countActiveKeyRows (processTicks t is s).store.rows k
      ≤ countActiveKeyRows s.store.rows k + 1 := by
  cases is with
  | nil => exact Nat.le_succ _
  | cons i rest =>
    have htail : ∀ st ∈ tickStates t rest (checkThresholds t i s),
        k ∈ st.activeAlertKeys := fun st hst => hall st hst
    exact le_trans
      (le_of_eq (processTicks_countKey_mem t rest (checkThresholds t i s) k htail))
      (checkThresholds_countKey_le t i s k)

/-- C1 (amended, witness): two consecutive warn-band disk snapshots keep the
disk-warning key firing and create exactly one ACTIVE row — in particular at
most one more than the empty store held. -/
theorem claim_C1_amended_witness :
    (∀ st ∈ (tickStates monThresholds warnWarnTicks emptyMon).drop 1,
      warnKeyOfCat .DISK ∈ st.activeAlertKeys) ∧
    countActiveKeyRows (processTicks monThresholds warnWarnTicks
        emptyMon).store.rows (warnKeyOfCat .DISK)
      ≤ countActiveKeyRows emptyMon.store.rows (warnKeyOfCat .DISK) + 1 :=
  ⟨by decide, claim_C1_amended monThresholds warnWarnTicks emptyMon
    (warnKeyOfCat .DISK) (by decide)⟩

/-- C9: after a tick whose snapshot is in the `none` band for a metric
category, neither the warning key nor the critical key of that category is in
the firing set, and as long as the following snapshots stay in the `none`
band no new ACTIVE alert of that category is created — at every visited state
and at the end of the sequence. -/
theorem claim_C9 (t : MonitoringThresholds) (c : AlertCategory)
    (hc : c = .CPU ∨ c = .MEMORY ∨ c = .DISK) (i : TickInput) (s : MonitorState)
    (hnone : noneBandFor c t i.health) (is : List TickInput)
    (hall : ∀ j ∈ is, noneBandFor c t j.health) :
    warnKeyOfCat c ∉ (checkThresholds t i s).activeAlertKeys ∧
    critKeyOfCat c ∉ (checkThresholds t i s).activeAlertKeys ∧
    (∀ st ∈ tickStates t is (checkThresholds t i s),
      countCatActive st.store.rows c
        = countCatActive (checkThresholds t i s).store.rows c) ∧
    countCatActive (processTicks t is (checkThresholds t i s)).store.rows c
      = countCatActive (checkThresholds t i s).store.rows c :=
  ⟨(checkThresholds_none_keys t c hc i s hnone).1,
    (checkThresholds_none_keys t c hc i s hnone).2,
    tickStates_countCat_none t c hc is (checkThresholds t i s) hall,
    processTicks_countCat_none t c hc is (checkThresholds t i s) hall⟩

/-- C9 (witness): after one warn-band disk snapshot, a recovery snapshot at
disk usage 40 clears both disk keys, and a further none-band snapshot creates
no new ACTIVE disk alert. -/
theorem claim_C9_witness :
    noneBandFor .DISK monThresholds c9NoneTick.health ∧
    (∀ j ∈ c9Tail, noneBandFor .DISK monThresholds j.health) ∧
    (warnKeyOfCat .DISK
        ∉ (checkThresholds monThresholds c9NoneTick c9State).activeAlertKeys ∧
      critKeyOfCat .DISK
        ∉ (checkThresholds monThresholds c9NoneTick c9State).activeAlertKeys ∧
      (∀ st ∈ tickStates monThresholds c9Tail
          (checkThresholds monThresholds c9NoneTick c9State),
        countCatActive st.store.rows .DISK
          = countCatActive (checkThresholds monThresholds c9NoneTick
              c9State).store.rows .DISK) ∧
      countCatActive (processTicks monThresholds c9Tail
          (checkThresholds monThresholds c9NoneTick c9State)).store.rows .DISK
        = countCatActive (checkThresholds monThresholds c9NoneTick
            c9State).store.rows .DISK) :=
  ⟨by decide, by decide,
    claim_C9 monThresholds .DISK (Or.inr (Or.inr rfl)) c9NoneTick c9State
      (by decide) c9Tail (by decide)⟩

/-- C2 (counterexample): the claimed invariant — counters equal the counts
of rows with status ≠ DISMISSED grouped by severity — is broken by
`acknowledge_alert`: create one ACTIVE WARNING alert on a fresh store and
acknowledge it; the warning counter is decremented to 0 while one
non-DISMISSED WARNING row remains. -/
theorem claim_C2_counterexample : ¬ countersMatchNonDismissed ackScenario := by
  decide

/-- C2 (amended): the counters track the ACTIVE rows, not the non-DISMISSED
ones: starting from `initialize` on a database whose rows are never
ACKNOWLEDGED (and have distinct uuids, as the primary key guarantees), after
any sequence of create / acknowledge / acknowledge-all / dismiss operations
the five counters equal the count of ACTIVE rows grouped by severity plus
their sum. -/
theorem claim_C2_amended (rows0 : List Alert)
    (hnoAck : ∀ a ∈ rows0, a.status ≠ AlertStatus.ACKNOWLEDGED)
    (hnd : (rows0.map Alert.uuid).Nodup) (ops : List StoreOp) :
    countersMatchActive (applyStoreOps ops (initManager rows0)) :=
  (applyStoreOps_preserves ops (initManager rows0)
    (initManager_establishes rows0 hnoAck) hnd).1

/-- C2 (witness): the amended invariant holds concretely after creating and
acknowledging one alert on an initially empty database. -/
theorem claim_C2_amended_witness :
    countersMatchActive (applyStoreOps
      [.create wAlert "u0" true 5, .acknowledge "a1" 6] (initManager [])) :=
  claim_C2_amended [] (fun a ha => absurd ha (List.not_mem_nil a)) (by simp)
    [.create wAlert "u0" true 5, .acknowledge "a1" 6]

/-! ## C3 — LLM engine stop and queued futures -/

/-- C3 (counterexample): `LLMEngine::stop()` does not complete queued
futures.  Starting from a running engine with one queued request whose
future is unfulfilled, after `stop()` the request is still in the queue with
its promise unset and nothing has been completed — refuting the claim that
every queued request's future is completed with a failure whose error text
is "queue cleared" (`clear_queue` has no caller in the source, and even its
error text is "Queue cleared"). -/
theorem claim_C3_counterexample :
    (stopEngine engineWithQueued).requestQueue = [⟨"r1", none⟩] ∧
    (stopEngine engineWithQueued).completed = [] := by
  exact ⟨rfl, rfl⟩

/-- C3 (amended): `stop()` clears the running flag and leaves the queue and
its unfulfilled futures untouched; the separate `clear_queue()` operation —
which `stop()` never invokes — empties the queue and completes each queued
future with a failure result whose error text is "Queue cleared". -/
theorem claim_C3_amended (s : EngineState) :
    (stopEngine s).running = false ∧
    (stopEngine s).requestQueue = s.requestQueue ∧
    (stopEngine s).completed = s.completed ∧
    (clearQueue s).requestQueue = [] ∧
    (clearQueue s).completed =
      s.completed ++ s.requestQueue.map
        (fun q => { q with promiseValue := some (clearedResult q.requestId) }) ∧
    ∀ rid : String,
      (clearedResult rid).success = false ∧ (clearedResult rid).error = "Queue cleared" :=
  ⟨rfl, rfl, rfl, rfl, rfl, fun _ => ⟨rfl, rfl⟩⟩

/-! ## C4 — server stop drains in-flight handlers before unlinking -/

/-- Every step of the server transition system preserves `serverInv`. -/
theorem serverStep_preserves (s s' : ServerState) (hI : serverInv s)
    (hs : ServerStep s s') : serverInv s' := by
  obtain ⟨h1, h2, h3⟩ := hI
  cases hs with
  | beginHandler h =>
    refine ⟨by simp; omega, ?_, by simpa using h3⟩
    intro hu
    simp only at hu
    exact absurd (h2 hu).1 (by simp [h])
  | endHandler h =>
    refine ⟨by simp; omega, ?_, by simpa using h3⟩
    intro hu
    simp only at hu
    have := (h2 hu).2
    omega
  | stopShutdown h =>
    exact ⟨h1, by simpa using h2, by simpa using h3⟩
  | stopJoinAccept h =>
    refine ⟨h1, ?_, by simpa using h3⟩
    intro hu
    simp only at hu
    exact ⟨rfl, (h2 hu).2⟩
  | stopDrainUnlink hj ha =>
    exact ⟨h1, fun _ => ⟨hj, ha⟩, fun _ => rfl⟩

/-- `serverInv` holds in every reachable state. -/
theorem serverReachable_inv (s : ServerState) (h : ServerReachable s) :
    serverInv s := by
  induction h with
  | refl => exact ⟨rfl, by simp [serverInit], by simp [serverInit]⟩
  | tail hab hbc ih => exact serverStep_preserves _ _ ih hbc

/-- C4: in every reachable state of the server model, once `stop()` has
returned every handler invocation that ever began has ended (the in-flight
count drained to zero), and the socket file is unlinked only in states with
zero in-flight handlers. -/
theorem claim_C4 (s : ServerState) (h : ServerReachable s) :
    (s.stopReturned = true → s.endedHandlers = s.begunHandlers) ∧
    (s.socketUnlinked = true → s.activeConnections = 0) := by
  obtain ⟨h1, h2, h3⟩ := serverReachable_inv s h
  constructor
  · intro hs
    have := (h2 (h3 hs)).2
    omega
  · intro hu
    exact (h2 hu).2

/-- C4 (witness): a concrete run — one handler begins and ends, then stop
shuts the socket, joins the accept thread and drains — reaches a state with
`stopReturned` where begun = ended. -/
theorem claim_C4_witness :
    ∃ s : ServerState, ServerReachable s ∧ s.stopReturned = true ∧
      s.endedHandlers = s.begunHandlers := by
  have s1 : ServerStep serverInit ⟨true, false, 1, 1, 0, false, false⟩ :=
    ServerStep.beginHandler serverInit rfl
  have s2 : ServerStep ⟨true, false, 1, 1, 0, false, false⟩
      ⟨true, false, 0, 1, 1, false, false⟩ :=
    ServerStep.endHandler _ (by decide)
  have s3 : ServerStep ⟨true, false, 0, 1, 1, false, false⟩
      ⟨false, false, 0, 1, 1, false, false⟩ :=
    ServerStep.stopShutdown _ rfl
  have s4 : ServerStep ⟨false, false, 0, 1, 1, false, false⟩
      ⟨false, true, 0, 1, 1, false, false⟩ :=
    ServerStep.stopJoinAccept _ rfl
  have s5 : ServerStep ⟨false, true, 0, 1, 1, false, false⟩
      ⟨false, true, 0, 1, 1, true, true⟩ :=
    ServerStep.stopDrainUnlink _ rfl rfl
  have chain : ServerReachable ⟨false, true, 0, 1, 1, true, true⟩ :=
    Relation.ReflTransGen.tail (Relation.ReflTransGen.tail
      (Relation.ReflTransGen.tail (Relation.ReflTransGen.tail
        (Relation.ReflTransGen.tail Relation.ReflTransGen.refl s1) s2) s3) s4) s5
  exact ⟨_, chain, rfl, (claim_C4 _ chain).1 rfl⟩

/-! ## C5 — rate limiting -/

/-- Inductive bound on the fixed-window limiter: within each limiter window
(identified by its start, which strictly increases at every reset) the
number of admitted calls is bounded by the maximum, offset in the current
window by the calls already counted; and every decision is taken in a window
no older than the current one. -/
theorem rlRun_window_bound (ts : List Int) (s : RateLimiter)
    (hmax : 0 ≤ s.maxPerSecond) (hc0 : 0 ≤ s.count)
    (hcle : s.count ≤ s.maxPerSecond) :
    (∀ w, (admittedInLimiterWindow (rlRun s ts).2 w : Int) ≤
        (if w = s.windowStart then s.maxPerSecond - s.count else s.maxPerSecond))
    ∧ ∀ r ∈ (rlRun s ts).2, s.windowStart ≤ r.ws := by
  induction ts generalizing s with
  | nil =>
    refine ⟨fun w => ?_, fun r hr => by simp [rlRun] at hr⟩
    simp only [rlRun, admittedInLimiterWindow, List.countP_nil]
    split <;> omega
  | cons t ts ih =>
    by_cases hr : (1000 : Int) ≤ t - s.windowStart
    · by_cases hd : s.maxPerSecond ≤ (0 : Int)
      · have hallow : s.allow t = ({ s with count := 0, windowStart := t }, false) := by
          simp [RateLimiter.allow, hr, hd]
        obtain ⟨ihb, ihw⟩ := ih { s with count := 0, windowStart := t } hmax
          (show (0 : Int) ≤ 0 from le_rfl) (show (0 : Int) ≤ s.maxPerSecond from hmax)
        have hws : s.windowStart < t := by omega
        constructor
        · intro w
          by_cases hw : w = s.windowStart
          · subst hw
            have hnone : List.countP (fun r => r.admitted && r.ws == s.windowStart)
                (rlRun { s with count := 0, windowStart := t } ts).2 = 0 := by
              apply List.countP_eq_zero.mpr
              intro r hrr
              have hge := ihw r hrr
              simp only [Bool.and_eq_true, beq_iff_eq]
              rintro ⟨-, hws2⟩
              simp only at hge
              omega
            simp only [rlRun, hallow, admittedInLimiterWindow, List.countP_cons,
              hnone, if_pos rfl]
            simp
            omega
          · have hb := ihb w
            simp only [rlRun, hallow, admittedInLimiterWindow, List.countP_cons,
              if_neg hw]
            simp only [admittedInLimiterWindow] at hb
            split at hb <;> simp <;> omega
        · intro r hrr
          simp only [rlRun, hallow] at hrr
          rcases List.mem_cons.mp hrr with hcase | hcase
          · subst hcase; simp; omega
          · have hge := ihw r hcase
            simp only at hge ⊢
            omega
      · have hallow : s.allow t = ({ s with count := 1, windowStart := t }, true) := by
          simp [RateLimiter.allow, hr, hd]
        obtain ⟨ihb, ihw⟩ := ih { s with count := 1, windowStart := t } hmax
          (show (0 : Int) ≤ 1 by norm_num) (show (1 : Int) ≤ s.maxPerSecond by omega)
        have hws : s.windowStart < t := by omega
        constructor
        · intro w
          by_cases hw : w = s.windowStart
          · subst hw
            have hnone : List.countP (fun r => r.admitted && r.ws == s.windowStart)
                (rlRun { s with count := 1, windowStart := t } ts).2 = 0 := by
              apply List.countP_eq_zero.mpr
              intro r hrr
              have hge := ihw r hrr
              simp only [Bool.and_eq_true, beq_iff_eq]
              rintro ⟨-, hws2⟩
              simp only at hge
              omega
            have hne2 : ¬ (((t : Int) == s.windowStart) = true) := by
              simp only [beq_iff_eq]
              omega
            simp only [rlRun, hallow, admittedInLimiterWindow, List.countP_cons,
              hnone, if_pos rfl]
            simp [hne2]
            omega
          · have hb := ihb w
            simp only [admittedInLimiterWindow] at hb
            simp only [rlRun, hallow, admittedInLimiterWindow, List.countP_cons,
              if_neg hw]
            by_cases hwt : w = t
            · subst hwt
              simp at hb ⊢
              omega
            · have hne2 : ¬ (((t : Int) == w) = true) := by
                simp only [beq_iff_eq]
                intro hx
                exact hwt hx.symm
              simp only [if_neg hwt] at hb
              simp [hne2]
              omega
        · intro r hrr
          simp only [rlRun, hallow] at hrr
          rcases List.mem_cons.mp hrr with hcase | hcase
          · subst hcase; simp; omega
          · have hge := ihw r hcase
            simp only at hge ⊢
            omega
    · by_cases hd : s.maxPerSecond ≤ s.count
      · have hallow : s.allow t = (s, false) := by
          simp [RateLimiter.allow, hr, hd]
        obtain ⟨ihb, ihw⟩ := ih s hmax hc0 hcle
        constructor
        · intro w
          have hb := ihb w
          simp only [admittedInLimiterWindow] at hb
          simp only [rlRun, hallow, admittedInLimiterWindow, List.countP_cons]
          by_cases hw : w = s.windowStart
          · subst hw
            rw [if_pos rfl] at hb ⊢
            simp
            omega
          · rw [if_neg hw] at hb ⊢
            simp
            omega
        · intro r hrr
          simp only [rlRun, hallow] at hrr
          rcases List.mem_cons.mp hrr with hcase | hcase
          · subst hcase; simp
          · exact ihw r hcase
      · have hallow : s.allow t = ({ s with count := s.count + 1 }, true) := by
          simp [RateLimiter.allow, hr, hd]
        obtain ⟨ihb, ihw⟩ := ih { s with count := s.count + 1 } hmax
          (show (0 : Int) ≤ s.count + 1 by omega)
          (show s.count + 1 ≤ s.maxPerSecond by omega)
        constructor
        · intro w
          have hb := ihb w
          simp only [admittedInLimiterWindow] at hb
          simp only [rlRun, hallow, admittedInLimiterWindow, List.countP_cons]
          by_cases hw : w = s.windowStart
          · subst hw
            simp at hb ⊢
            omega
          · have hne : ¬ (((s.windowStart : Int) == w) = true) := by
              simp only [beq_iff_eq]
              intro hx
              exact hw hx.symm
            simp only [if_neg hw] at hb ⊢
            simp [hne]
            omega
        · intro r hrr
          simp only [rlRun, hallow] at hrr
          rcases List.mem_cons.mp hrr with hcase | hcase
          · subst hcase; simp
          · exact ihw r hcase

/-- C5 (counterexample): the limiter is a fixed-window counter, so a
wall-clock one-second window straddling a reset admits more than the
maximum: with max 1 per second and the window started at 0, the calls at
999 ms and 1000 ms are both admitted and both fall into the wall-clock
window `[999, 1999)` — 2 > 1. -/
theorem claim_C5_counterexample :
    countWithinSecond (admittedTimes (rlRun ⟨1, 0, 0⟩ [999, 1000]).2) 999 = 2 ∧
    ¬ ((2 : Int) ≤ 1) := by
  decide

/-- C5 (amended): the bound the limiter actually enforces is per *limiter*
window, not per arbitrary wall-clock window: for any sequence of calls, the
number of admitted calls decided within any single limiter window (the
window start in effect at the decision) is at most the configured maximum.
(Across an arbitrary 1-second wall-clock window, two limiter windows can
contribute, as the counterexample shows.) -/
theorem claim_C5_amended (max w0 : Int) (hmax : 0 ≤ max) (ts : List Int)
    (w : Int) :
    (admittedInLimiterWindow (rlRun ⟨max, w0, 0⟩ ts).2 w : Int) ≤ max := by
  have h := (rlRun_window_bound ts ⟨max, w0, 0⟩ hmax le_rfl hmax).1 w
  simp only at h
  split at h <;> omega

/-- C5 (witness): the per-window bound instantiated at max 2 and three
calls. -/
theorem claim_C5_amended_witness :
    (0 : Int) ≤ 2 ∧
    (admittedInLimiterWindow (rlRun ⟨2, 0, 0⟩ [1, 2, 3]).2 0 : Int) ≤ 2 :=
  ⟨by decide, claim_C5_amended 2 0 (by decide) [1, 2, 3] 0⟩

/-! ## C6 — configuration validation and threshold pairs -/

/-- C6 (counterexample): a configuration whose disk warning threshold (0.9)
is strictly greater than its disk critical threshold (0.5) is accepted by
`Config::validate` (the empty error string), refuting both directions of the
claim: acceptance does not imply `warn < critical`, and `warn ≥ critical`
does not produce a non-empty error. -/
theorem claim_C6_counterexample :
    badConfig.validate = "" ∧
    badConfig.diskCritThreshold ≤ badConfig.diskWarnThreshold := by
  decide

/-- C6 (amended): `Config::validate` accepts a configuration exactly when the
socket backlog, socket timeout, LLM context length, LLM thread count and
monitor interval are positive and each of the four thresholds individually
lies in (0, 1]; it never compares a warning threshold against its critical
threshold. -/
theorem claim_C6_amended (c : Config) :
    c.validate = "" ↔
      (0 < c.socketBacklog ∧ 0 < c.socketTimeoutMs ∧ 0 < c.llmContextLength ∧
        0 < c.llmThreads ∧ 0 < c.monitorIntervalSec ∧
        (0 < c.diskWarnThreshold ∧ c.diskWarnThreshold ≤ 1) ∧
        (0 < c.diskCritThreshold ∧ c.diskCritThreshold ≤ 1) ∧
        (0 < c.memWarnThreshold ∧ c.memWarnThreshold ≤ 1) ∧
        (0 < c.memCritThreshold ∧ c.memCritThreshold ≤ 1)) := by
  unfold Config.validate
  split_ifs with h1 h2 h3 h4 h5 h6 h7 h8 h9
  · exact iff_of_false (by decide) (by rintro ⟨hx, -⟩; omega)
  · exact iff_of_false (by decide) (by rintro ⟨-, hx, -⟩; omega)
  · exact iff_of_false (by decide) (by rintro ⟨-, -, hx, -⟩; omega)
  · exact iff_of_false (by decide) (by rintro ⟨-, -, -, hx, -⟩; omega)
  · exact iff_of_false (by decide) (by rintro ⟨-, -, -, -, hx, -⟩; omega)
  · refine iff_of_false (by decide) ?_
    rintro ⟨-, -, -, -, -, ⟨hx0, hx1⟩, -⟩
    rcases h6 with h | h
    · linarith
    · linarith
  · refine iff_of_false (by decide) ?_
    rintro ⟨-, -, -, -, -, -, ⟨hx0, hx1⟩, -⟩
    rcases h7 with h | h
    · linarith
    · linarith
  · refine iff_of_false (by decide) ?_
    rintro ⟨-, -, -, -, -, -, -, ⟨hx0, hx1⟩, -⟩
    rcases h8 with h | h
    · linarith
    · linarith
  · refine iff_of_false (by decide) ?_
    rintro ⟨-, -, -, -, -, -, -, -, hx0, hx1⟩
    rcases h9 with h | h
    · linarith
    · linarith
  · refine iff_of_true rfl ?_
    push_neg at h6 h7 h8 h9
    exact ⟨by omega, by omega, by omega, by omega, by omega, h6, h7, h8, h9⟩

/-! ## C7 — initial load of a missing configuration file -/

/-- C7 (counterexample): `ConfigManager::load` on a missing file does report
failure — it returns `false` (tests/unit/test_config.cpp,
`ConfigManagerLoadReturnsDefaultsOnFailure`, pins exactly this), refuting
"it never returns an error for the initial load of a missing file". -/
theorem claim_C7_counterexample :
    ¬ ((managerLoad "/home/user" "/etc/cortex/config.yaml" .missing mgrSt0).1 = true) := by
  decide

/-- C7 (amended): for a missing configuration file, `ConfigManager::load`
installs the default configuration (with paths expanded) and returns
`false`; the caller (`Daemon::initialize`) treats this as non-fatal. -/
theorem claim_C7_amended (home path : String) (st : ConfigManagerState) :
    managerLoad home path .missing st =
      (false, { st with config := Config.defaults.expandPaths home }) := rfl

/-! ## C8 — failed reload retains the old configuration -/

/-- C8: whenever `ConfigManager::reload` fails — no stored path, missing
file, parse failure, or failed validation — it returns `false` and the whole
manager state (in particular the record observed via `get()`) is exactly the
one from before the reload. -/
theorem claim_C8 (home : String) (o : LoadOutcome) (st : ConfigManagerState)
    (hfail : st.configPath = "" ∨ o = .missing ∨ o = .parseFailure ∨
      ∃ c, o = .parsed c ∧ ¬ (c.expandPaths home).validate = "") :
    (managerReload home o st).1 = false ∧ (managerReload home o st).2 = st := by
  unfold managerReload
  rcases hfail with h | h | h | ⟨c, rfl, hv⟩
  · simp [h]
  · subst h
    by_cases hp : st.configPath = "" <;> simp [hp, configLoad]
  · subst h
    by_cases hp : st.configPath = "" <;> simp [hp, configLoad]
  · by_cases hp : st.configPath = "" <;> simp [hp, configLoad, hv]

/-- C8 (witness): a parse failure during reload from a loaded manager state
returns `false` and keeps the state. -/
theorem claim_C8_witness :
    (managerReload "/home/user" .parseFailure mgrStLoaded).1 = false ∧
    (managerReload "/home/user" .parseFailure mgrStLoaded).2 = mgrStLoaded :=
  claim_C8 "/home/user" .parseFailure mgrStLoaded (Or.inr (Or.inr (Or.inl rfl)))

/-! ## C10 — alerts.acknowledge with neither uuid nor a true all flag -/

/-- C10 (counterexample): a params object `{"all": 1}` contains neither a
"uuid" field nor a *true* "all" flag, yet the handler does not acknowledge
anything: `get<bool>` on the non-boolean "all" throws, `dispatch` turns the
exception into an INTERNAL_ERROR response, and the store is left
untouched. -/
theorem claim_C10_counterexample :
    (dispatchAlertsAcknowledge (Json.obj [("all", Json.num 1)]) 9 oneActiveStore).1.success = false ∧
    (dispatchAlertsAcknowledge (Json.obj [("all", Json.num 1)]) 9 oneActiveStore).1.errorCode = INTERNAL_ERROR ∧
    (dispatchAlertsAcknowledge (Json.obj [("all", Json.num 1)]) 9 oneActiveStore).2 = oneActiveStore :=
  ⟨rfl, rfl, rfl⟩

/-- C10 (amended): for every request whose params have no "uuid" field and
whose "all" field is either absent or the boolean `false`, the handler does
not return an invalid-params error: it acknowledges every ACTIVE alert
(exactly `acknowledge_all`) and returns the count of rows changed.  (An
"all" field holding a non-boolean value instead raises a type error that
surfaces as INTERNAL_ERROR.) -/
theorem claim_C10_amended (params : Json) (now : Nat) (st : AlertStore)
    (h : params.getField "uuid" = none ∧
      (params.getField "all" = none ∨ params.getField "all" = some (Json.bool false))) :
    handleAlertsAcknowledge params now st =
      .ok (Response.okResp (Json.obj
        [("acknowledged", Json.num (acknowledgeAll now st).1),
         ("message", Json.str ("Acknowledged " ++ toString (acknowledgeAll now st).1 ++ " alert(s)"))]),
        (acknowledgeAll now st).2) := by
  obtain ⟨hu, hall⟩ := h
  have hcu : params.containsField "uuid" = false := by
    simp [Json.containsField, hu]
  rcases hall with ha | ha
  · have hca : params.containsField "all" = false := by
      simp [Json.containsField, ha]
    unfold handleAlertsAcknowledge
    simp [hca, hcu]
  · have hca : params.containsField "all" = true := by
      simp [Json.containsField, ha]
    have hobj : params.isObject = true := by
      cases params <;> simp_all [Json.getField, Json.isObject]
    unfold handleAlertsAcknowledge
    simp [hobj, hca, ha, Json.getBool, hcu]

/-- C10 (witness): an empty params object acknowledges all ACTIVE alerts. -/
theorem claim_C10_amended_witness :
    handleAlertsAcknowledge (Json.obj []) 3 oneActiveStore =
      .ok (Response.okResp (Json.obj
        [("acknowledged", Json.num (acknowledgeAll 3 oneActiveStore).1),
         ("message", Json.str ("Acknowledged " ++ toString (acknowledgeAll 3 oneActiveStore).1 ++ " alert(s)"))]),
        (acknowledgeAll 3 oneActiveStore).2) :=
  claim_C10_amended (Json.obj []) 3 oneActiveStore ⟨rfl, Or.inl rfl⟩

end Cortexd
